import Mathlib

/-!
Shallow embedding of the Intel IOMMU shared-virtual-addressing core
(`drivers/iommu/intel/svm.c`): the page-request-queue (PRQ) ring reader
`prq_event_thread`, the drain protocol `intel_svm_drain_prq`, the host-mode
bind/unbind registry (`intel_svm_bind_mm` / `intel_svm_unbind_mm`), the
mmu-notifier range invalidation (`intel_invalidate_range` /
`intel_flush_svm_range_dev`), and the canonical-address check
`is_canonical_address`.

Machine integers are modelled as `Nat` with explicit wrap-around where the
source relies on it.  Hardware and kernel collaborators outside this file
(register reads, `ioasid_find`, `find_extend_vma`, `handle_mm_fault`,
`iommu_report_device_fault`, invalidation-queue submission) are modelled as
explicit environments supplying their observable results.
-/

namespace IntelSvm

/-! ### PRQ ring arithmetic

The PRQ is a physically contiguous ring of 32-byte descriptors; its size in
bytes is `0x1000 << prq_size_page_order`.  Head and tail offsets are kept as
byte offsets and masked with `PRQ_RING_MASK` (svm.c line 915). -/

/-- Ring size in bytes: `0x1000 << prq_size_page_order`. -/
def ring_bytes (order : Nat) : Nat := 0x1000 <<< order

/-- `#define PRQ_RING_MASK ((0x1000 << prq_size_page_order) - 0x20)` -/
def PRQ_RING_MASK (order : Nat) : Nat := (0x1000 <<< order) - 0x20

/-- A raw register value masked with the ring mask, as in
`dmar_readq(iommu->reg + DMAR_PQT_REG) & PRQ_RING_MASK`. -/
def mask_read (order x : Nat) : Nat := x &&& PRQ_RING_MASK order

/-- Ring advance: `head = (head + sizeof(*req)) & PRQ_RING_MASK`
(svm.c lines 994 and 1249); descriptors are 32 bytes. -/
def prq_advance (order head : Nat) : Nat := (head + 32) &&& PRQ_RING_MASK order

theorem ring_bytes_eq (order : Nat) : ring_bytes order = 2 ^ (order + 12) := by
  show 0x1000 <<< order = 2 ^ (order + 12)
  rw [Nat.shiftLeft_eq, pow_add, mul_comm]
  norm_num

theorem ring_bytes_ge_32 (order : Nat) : 32 ≤ ring_bytes order := by
  rw [ring_bytes_eq]
  calc (32 : Nat) ≤ 2 ^ 12 := by norm_num
  _ ≤ 2 ^ (order + 12) := Nat.pow_le_pow_right (by norm_num) (by omega)

theorem PRQ_RING_MASK_eq (order : Nat) :
    PRQ_RING_MASK order = 2 ^ (order + 12) - 32 := by
  show (0x1000 <<< order) - 0x20 = 2 ^ (order + 12) - 32
  rw [Nat.shiftLeft_eq, pow_add, mul_comm]
  norm_num

theorem dvd_ring_bytes (order : Nat) : 32 ∣ ring_bytes order := by
  rw [ring_bytes_eq, pow_add]
  exact (by norm_num : (32 : Nat) ∣ 2 ^ 12).mul_left _

theorem PRQ_RING_MASK_testBit (order i : Nat) :
    (PRQ_RING_MASK order).testBit i =
      (decide (5 ≤ i) && decide (i < order + 12)) := by
  have hmask : PRQ_RING_MASK order = (2 ^ (order + 7) - 1) <<< 5 := by
    rw [PRQ_RING_MASK_eq, Nat.shiftLeft_eq]
    have h : 2 ^ (order + 12) = 2 ^ (order + 7) * 2 ^ 5 := by
      rw [← pow_add]
    have h1 : 1 ≤ 2 ^ (order + 7) := Nat.one_le_two_pow
    omega
  rw [hmask, Nat.testBit_shiftLeft, Nat.testBit_two_pow_sub_one]
  by_cases h5 : 5 ≤ i
  · by_cases hk : i < order + 12
    · have h7 : i - 5 < order + 7 := by omega
      simp [h5, hk, h7, ge_iff_le]
    · have h7 : ¬(i - 5 < order + 7) := by omega
      simp [h5, hk, h7, ge_iff_le]
  · simp [h5, ge_iff_le]

theorem testBit_false_of_align32 {x : Nat} (h : 32 ∣ x) {i : Nat} (hi : i < 5) :
    x.testBit i = false := by
  obtain ⟨y, rfl⟩ := h
  have h32 : (32 : Nat) * y = y <<< 5 := by
    rw [Nat.shiftLeft_eq]; ring
  rw [h32, Nat.testBit_shiftLeft]
  simp [ge_iff_le]
  omega

theorem testBit_false_of_lt_ring {x : Nat} {order : Nat}
    (h : x < ring_bytes order) {i : Nat} (hi : order + 12 ≤ i) :
    x.testBit i = false := by
  apply Nat.testBit_eq_false_of_lt
  calc x < ring_bytes order := h
  _ = 2 ^ (order + 12) := ring_bytes_eq order
  _ ≤ 2 ^ i := Nat.pow_le_pow_right (by norm_num) hi

/-- Masking a raw register read yields an offset strictly inside the ring. -/
theorem mask_read_lt (order x : Nat) : mask_read order x < ring_bytes order := by
  have h1 : mask_read order x ≤ PRQ_RING_MASK order := Nat.and_le_right
  have h2 := PRQ_RING_MASK_eq order
  have h3 := ring_bytes_eq order
  have h4 := ring_bytes_ge_32 order
  omega

/-- Masking a raw register read yields a 32-byte aligned offset. -/
theorem mask_read_align (order x : Nat) : 32 ∣ mask_read order x := by
  have hmod : mask_read order x % 2 ^ 5 = 0 := by
    apply Nat.eq_of_testBit_eq
    intro i
    rw [Nat.testBit_mod_two_pow, Nat.zero_testBit]
    rcases Nat.lt_or_ge i 5 with hi | hi
    · show (decide (i < 5) && (mask_read order x).testBit i) = false
      show (decide (i < 5) &&
        ((x &&& PRQ_RING_MASK order).testBit i)) = false
      rw [Nat.testBit_land, PRQ_RING_MASK_testBit]
      simp
      omega
    · simp only [Bool.and_eq_false_imp, decide_eq_true_eq]
      intro h
      omega
  have : (32 : Nat) = 2 ^ 5 := by norm_num
  rw [this]
  exact Nat.dvd_of_mod_eq_zero hmod

/-- An aligned in-range offset is a fixed point of the ring mask. -/
theorem mask_read_self {order x : Nat} (h32 : 32 ∣ x)
    (hlt : x < ring_bytes order) : mask_read order x = x := by
  apply Nat.eq_of_testBit_eq
  intro i
  show (x &&& PRQ_RING_MASK order).testBit i = x.testBit i
  rw [Nat.testBit_land, PRQ_RING_MASK_testBit]
  rcases Nat.lt_or_ge i 5 with hi | hi
  · rw [testBit_false_of_align32 h32 hi]
    simp
  · rcases Nat.lt_or_ge i (order + 12) with hk | hk
    · simp [hi, hk]
    · rw [testBit_false_of_lt_ring hlt hk]
      simp

/-- Masking the ring size itself wraps to zero. -/
theorem mask_ring_bytes (order : Nat) : mask_read order (ring_bytes order) = 0 := by
  apply Nat.eq_of_testBit_eq
  intro i
  show (ring_bytes order &&& PRQ_RING_MASK order).testBit i = Nat.testBit 0 i
  rw [Nat.testBit_land, PRQ_RING_MASK_testBit, Nat.zero_testBit,
    ring_bytes_eq, Nat.testBit_two_pow]
  by_cases h : order + 12 = i
  · have h2 : ¬(i < order + 12) := by omega
    simp [h, h2]
  · simp [h]

/-- For an aligned in-range head, the masked advance is addition modulo the
ring size. -/
theorem prq_advance_eq_mod {order head : Nat} (h32 : 32 ∣ head)
    (hlt : head < ring_bytes order) :
    prq_advance order head = (head + 32) % ring_bytes order := by
  have hr32 := dvd_ring_bytes order
  have hle : head + 32 ≤ ring_bytes order := by
    obtain ⟨a, ha⟩ := h32
    obtain ⟨b, hb⟩ := hr32
    omega
  rcases Nat.lt_or_ge (head + 32) (ring_bytes order) with hc | hc
  · rw [show prq_advance order head = mask_read order (head + 32) from rfl,
      mask_read_self (by omega) hc, Nat.mod_eq_of_lt hc]
  · have heq : head + 32 = ring_bytes order := by omega
    rw [show prq_advance order head = mask_read order (head + 32) from rfl,
      heq, mask_ring_bytes, Nat.mod_self]

theorem prq_advance_align {order head : Nat} (_ : 32 ∣ head) :
    32 ∣ prq_advance order head := mask_read_align order (head + 32)

theorem prq_advance_lt (order head : Nat) :
    prq_advance order head < ring_bytes order := mask_read_lt order (head + 32)

/-! ### Ring distance and the ordered offset list -/

/-- Number of descriptors between `head` and `tail` in ring order. -/
def prq_dist (order head tail : Nat) : Nat :=
  ((tail + ring_bytes order - head) % ring_bytes order) / 32

/-- The descriptor byte offsets visited starting from `head`, in ring order. -/
def ring_offsets (order head n : Nat) : List Nat :=
  (List.range n).map (fun j => (head + 32 * j) % ring_bytes order)

theorem ring_bytes_pos (order : Nat) : 0 < ring_bytes order := by
  have := ring_bytes_ge_32 order; omega

theorem prq_dist_eq_zero {order head tail : Nat} (hh : head < ring_bytes order)
    (ht : tail < ring_bytes order) (h32h : 32 ∣ head) (h32t : 32 ∣ tail) :
    prq_dist order head tail = 0 ↔ head = tail := by
  unfold prq_dist
  obtain ⟨a, ha⟩ := h32h
  obtain ⟨b, hb⟩ := h32t
  obtain ⟨c, hc⟩ := dvd_ring_bytes order
  have hc0 : 0 < c := by have := ring_bytes_ge_32 order; omega
  constructor
  · intro h
    rcases Nat.lt_or_ge head (tail + 1) with hle | hgt
    · have : (tail + ring_bytes order - head) % ring_bytes order =
        tail - head := by
        have h1 : tail + ring_bytes order - head =
          (tail - head) + ring_bytes order := by omega
        rw [h1, Nat.add_mod_right, Nat.mod_eq_of_lt (by omega)]
      omega
    · have : (tail + ring_bytes order - head) % ring_bytes order =
        tail + ring_bytes order - head := by
        rw [Nat.mod_eq_of_lt (by omega)]
      omega
  · intro h
    subst h
    have h1 : head + ring_bytes order - head = ring_bytes order := by omega
    rw [h1, Nat.mod_self]

theorem prq_dist_step {order head tail : Nat} (hh : head < ring_bytes order)
    (ht : tail < ring_bytes order) (h32h : 32 ∣ head) (h32t : 32 ∣ tail)
    (hne : head ≠ tail) :
    prq_dist order (prq_advance order head) tail + 1 = prq_dist order head tail := by
  rw [prq_advance_eq_mod h32h hh]
  unfold prq_dist
  obtain ⟨a, ha⟩ := h32h
  obtain ⟨b, hb⟩ := h32t
  obtain ⟨c, hc⟩ := dvd_ring_bytes order
  have hc0 : 0 < c := by have := ring_bytes_ge_32 order; omega
  -- the ring distance in bytes before the step
  have hstep : (head + 32) % ring_bytes order =
      if head + 32 < ring_bytes order then head + 32 else 0 := by
    rcases Nat.lt_or_ge (head + 32) (ring_bytes order) with hcase | hcase
    · rw [Nat.mod_eq_of_lt hcase]; simp [hcase]
    · have heq : head + 32 = ring_bytes order := by omega
      rw [heq, Nat.mod_self]
      simp
  have hmod : ∀ x : Nat, x < ring_bytes order →
      (x + ring_bytes order) % ring_bytes order = x := by
    intro x hx
    rw [Nat.add_mod_right, Nat.mod_eq_of_lt hx]
  rcases Nat.lt_or_ge (head + 32) (ring_bytes order) with hcase | hcase
  · rw [hstep]
    simp only [hcase, if_pos]
    rcases Nat.lt_or_ge head tail with hlt | hge
    · -- head < tail : distance is tail - head
      have e1 : tail + ring_bytes order - head = (tail - head) + ring_bytes order := by
        omega
      have e2 : tail + ring_bytes order - (head + 32) =
        (tail - (head + 32)) + ring_bytes order := by omega
      rw [e1, e2, Nat.add_mod_right, Nat.add_mod_right,
        Nat.mod_eq_of_lt (by omega), Nat.mod_eq_of_lt (by omega)]
      omega
    · -- tail < head
      have hgt : tail < head := by omega
      have e1 : (tail + ring_bytes order - head) % ring_bytes order =
        tail + ring_bytes order - head := Nat.mod_eq_of_lt (by omega)
      have e2 : (tail + ring_bytes order - (head + 32)) % ring_bytes order =
        tail + ring_bytes order - (head + 32) := Nat.mod_eq_of_lt (by omega)
      rw [e1, e2]
      omega
  · -- head + 32 wraps to 0
    have heq : head + 32 = ring_bytes order := by omega
    have hgt : tail < head := by omega
    rw [hstep, if_neg (by omega)]
    have e1 : (tail + ring_bytes order - head) % ring_bytes order =
      tail + ring_bytes order - head := Nat.mod_eq_of_lt (by omega)
    have e2 : (tail + ring_bytes order - 0) % ring_bytes order = tail := by
      rw [Nat.sub_zero, Nat.add_mod_right, Nat.mod_eq_of_lt ht]
    rw [e1, e2]
    omega

theorem ring_offsets_succ (order head n : Nat) :
    ring_offsets order head (n + 1) =
      head % ring_bytes order ::
        ring_offsets order ((head + 32) % ring_bytes order) n := by
  unfold ring_offsets
  rw [List.range_succ_eq_map, List.map_cons, List.map_map]
  refine congrArg₂ List.cons (by simp) ?_
  apply List.map_congr_left
  intro j _
  show (head + 32 * (j + 1)) % ring_bytes order =
    ((head + 32) % ring_bytes order + 32 * j) % ring_bytes order
  rw [Nat.mod_add_mod]
  have h : head + 32 * (j + 1) = head + 32 + 32 * j := by ring
  rw [h]

/-- The visited offsets are pairwise distinct as long as at most one lap is
taken. -/
theorem ring_offsets_nodup {order head n : Nat}
    (hn : 32 * n ≤ ring_bytes order) : (ring_offsets order head n).Nodup := by
  unfold ring_offsets
  apply List.Nodup.map_on _ (List.nodup_range n)
  intro i hi j hj hij
  rw [List.mem_range] at hi hj
  by_contra hne
  rcases Nat.lt_or_ge i j with hlt | hge
  · have hmod : (head + 32 * i) % ring_bytes order =
      (head + 32 * j) % ring_bytes order := hij
    have hdvd : ring_bytes order ∣ (head + 32 * j) - (head + 32 * i) := by
      rw [← Nat.modEq_iff_dvd' (by omega)]
      exact hmod
    have hsub : (head + 32 * j) - (head + 32 * i) = 32 * (j - i) := by omega
    rw [hsub] at hdvd
    have hpos : 0 < 32 * (j - i) := by omega
    have := Nat.le_of_dvd hpos hdvd
    omega
  · have hlt : j < i := by omega
    have hmod : (head + 32 * j) % ring_bytes order =
      (head + 32 * i) % ring_bytes order := hij.symm
    have hdvd : ring_bytes order ∣ (head + 32 * i) - (head + 32 * j) := by
      rw [← Nat.modEq_iff_dvd' (by omega)]
      exact hmod
    have hsub : (head + 32 * i) - (head + 32 * j) = 32 * (i - j) := by omega
    rw [hsub] at hdvd
    have hpos : 0 < 32 * (i - j) := by omega
    have := Nat.le_of_dvd hpos hdvd
    omega

theorem prq_dist_lt {order head tail : Nat} :
    32 * prq_dist order head tail ≤ ring_bytes order := by
  unfold prq_dist
  have h1 : (tail + ring_bytes order - head) % ring_bytes order <
      ring_bytes order := Nat.mod_lt _ (ring_bytes_pos order)
  omega

/-! ### Data model: descriptors, bindings, devices -/

/-- PRQ descriptor fields (svm.c `struct page_req_dsc`, lines 886-913).
Bit-fields that the core only tests as booleans are modelled as `Bool`. -/
structure page_req_dsc where
  dtype : Nat
  pasid_present : Bool
  priv_data_present : Bool
  rid : Nat
  pasid : Nat
  exe_req : Bool
  pm_req : Bool
  rd_req : Bool
  wr_req : Bool
  lpig : Bool
  prg_index : Nat
  addr : Nat
  priv_data : Nat × Nat
deriving Repr, DecidableEq

/-- The device handle fields the core consults. -/
structure device where
  id : Nat
  is_pci : Bool
deriving Repr, DecidableEq

/-- `struct intel_svm_dev` fields used by the core. -/
structure intel_svm_dev where
  dev : device
  sid : Nat
  users : Nat
  did : Nat
  qdep : Nat
  dev_iotlb : Bool
  pasid : Nat
deriving Repr, DecidableEq

/-- Binding flags; `SVM_FLAG_*` bits tested by the core. -/
structure svm_flags where
  supervisor_mode : Bool
  guest_mode : Bool
deriving Repr, DecidableEq

/-- `struct intel_svm` fields used by the core.  `mm` is an opaque
reference (an identifier) to the backing host address space; `none` for
supervisor bindings. -/
structure intel_svm where
  pasid : Nat
  flags : svm_flags
  mm : Option Nat
  devs : List intel_svm_dev
deriving Repr, DecidableEq

/-- The VMA attributes consulted by the fault path. -/
structure vm_area where
  vm_start : Nat
  vm_read : Bool
  vm_write : Bool
  vm_exec : Bool
deriving Repr, DecidableEq

/-- Page-group response codes `QI_RESP_SUCCESS` / `QI_RESP_INVALID` /
`QI_RESP_FAILURE`. -/
inductive resp_code where
  | success
  | invalid
  | failure
deriving Repr, DecidableEq

/-- The page-group response descriptor fields written at svm.c
lines 1228-1241. -/
structure pgrp_resp where
  pasid : Nat
  did : Nat
  pasid_present : Bool
  pdp : Bool
  code : resp_code
  grpid : Nat
  lpig : Bool
  priv_data : Option (Nat × Nat)
deriving Repr, DecidableEq

/-! ### Canonical address check -/

/-- Two's-complement reading of a 64-bit value, for `(long) addr`. -/
def toSigned64 (x : Nat) : Int :=
  if x % 2 ^ 64 < 2 ^ 63 then (x % 2 ^ 64 : Int) else (x % 2 ^ 64 : Int) - 2 ^ 64

/-- 64-bit signed wrap-around of an integer. -/
def wrapSigned64 (x : Int) : Int :=
  toSigned64 (x % 2 ^ 64).toNat

/-- `is_canonical_address` (svm.c lines 933-939): shifting the sign bit up
to bit 63 and arithmetically shifting back must reproduce the value.
`vms` is the architecture constant `__VIRTUAL_MASK_SHIFT`. -/
def is_canonical_address (vms : Nat) (addr : Nat) : Bool :=
  let shift := 64 - (vms + 1)
  let saddr := toSigned64 addr
  (wrapSigned64 (saddr * 2 ^ shift)).fdiv (2 ^ shift) == saddr

/-! ### The PRQ reader -/

/-- External collaborators of the PRQ reader, with the register values it
samples during one invocation. -/
structure prq_env where
  order : Nat
  virtual_mask_shift : Nat
  ring : Nat → page_req_dsc
  pqt : Nat
  pqh : Nat
  ioasid_find : Nat → Option intel_svm
  mmget_not_zero : Nat → Bool
  find_extend_vma : Nat → Nat → Option vm_area
  handle_mm_fault_error : Nat → Nat → Bool → Bool
  report_device_fault : Nat → page_req_dsc → Bool
  prs_pro : Bool
  pqh2 : Nat
  pqt2 : Nat

/-- `access_error` (svm.c lines 917-931): some requested access bit is not
present in `vma->vm_flags`. -/
def access_error (vma : vm_area) (req : page_req_dsc) : Bool :=
  (req.exe_req && !vma.vm_exec) || (req.rd_req && !vma.vm_read) ||
    (req.wr_req && !vma.vm_write)

/-- `intel_svm_prq_report` (svm.c lines 1044-1091): non-PCI devices are
refused with `-ENODEV`; otherwise the event is forwarded to
`iommu_report_device_fault`.  `true` means the function returned 0. -/
def intel_svm_prq_report (env : prq_env) (dev : device)
    (req : page_req_dsc) : Bool :=
  if !dev.is_pci then false
  else env.report_device_fault dev.id req

/-- The `no_pasid` tail of the loop body (svm.c lines 1220-1243): a
page-group response is submitted iff `lpig` or `priv_data_present` is set,
echoing the private data when present. -/
def prq_no_pasid_resp (req : page_req_dsc) (result : resp_code) :
    Option pgrp_resp :=
  if req.lpig || req.priv_data_present then
    some { pasid := req.pasid, did := req.rid,
           pasid_present := req.pasid_present,
           pdp := req.priv_data_present, code := result,
           grpid := req.prg_index, lpig := req.lpig,
           priv_data :=
             if req.priv_data_present then some req.priv_data else none }
  else none

/-- The `svm`/`sdev` pointers cached across loop iterations. -/
structure prq_cache where
  svm : Option intel_svm
  sdev : Option intel_svm_dev
deriving Repr, DecidableEq

/-- Observable effects of processing one descriptor. -/
structure desc_outcome where
  result : resp_code
  did_ioasid_find : Bool
  report : Option Bool
  mm_fault : Option (Nat × Bool)
  response : Option pgrp_resp
  handed_off : Bool
deriving Repr, DecidableEq

/-- The `invalid`/`bad_req`/`no_pasid` exit of the host-mode path: the
cached pointers are cleared (svm.c lines 1217-1218) and the response, if
required, is submitted with the computed `result`. -/
def host_exit (req : page_req_dsc) (fd : Bool) (mmf : Option (Nat × Bool))
    (result : resp_code) : prq_cache × desc_outcome :=
  ({ svm := none, sdev := none },
   { result := result, did_ioasid_find := fd, report := none,
     mm_fault := mmf, response := prq_no_pasid_resp req result,
     handed_off := false })

/-- Whether the loop body must call `ioasid_find` for `req`
(`!svm || svm->pasid != req->pasid`, svm.c line 1141). -/
def need_svm_lookup (c : prq_cache) (req : page_req_dsc) : Bool :=
  match c.svm with
  | some s => s.pasid != req.pasid
  | none => true

/-- The svm reference the loop body uses for `req`: the cached one when its
pasid matches, otherwise the result of `ioasid_find`
(svm.c lines 1141-1154). -/
def lookup_svm (env : prq_env) (c : prq_cache) (req : page_req_dsc) :
    Option intel_svm :=
  if need_svm_lookup c req then env.ioasid_find req.pasid else c.svm

/-- The sdev reference the loop body uses for `req`: the cached one when
its source-id matches, otherwise the first entry of `svm->devs` with
source-id `req->rid` (svm.c lines 1156-1168). -/
def lookup_sdev (c : prq_cache) (svm : intel_svm) (req : page_req_dsc) :
    Option intel_svm_dev :=
  match c.sdev with
  | some d =>
    if d.sid == req.rid then some d
    else svm.devs.find? (fun t => t.sid == req.rid)
  | none => svm.devs.find? (fun t => t.sid == req.rid)

/-- One iteration of the `prq_event_thread` while-loop body (svm.c
lines 1111-1249), processing descriptor `req` with the `(svm, sdev)`
references cached from the previous iteration. -/
def handle_desc (env : prq_env) (c : prq_cache) (req : page_req_dsc) :
    prq_cache × desc_outcome :=
  if !req.pasid_present then
    (c, { result := .invalid, did_ioasid_find := false, report := none,
          mm_fault := none, response := prq_no_pasid_resp req .invalid,
          handed_off := false })
  else if req.pm_req && (req.rd_req || req.wr_req) then
    (c, { result := .invalid, did_ioasid_find := false, report := none,
          mm_fault := none, response := prq_no_pasid_resp req .invalid,
          handed_off := false })
  else if req.exe_req && req.rd_req then
    (c, { result := .invalid, did_ioasid_find := false, report := none,
          mm_fault := none, response := prq_no_pasid_resp req .invalid,
          handed_off := false })
  else
    -- The source refreshes the sdev cache (lines 1156-1168) before testing
    -- SVM_FLAG_GUEST_MODE; its result is only read in the guest branch, and
    -- every host-path exit passes through `bad_req`, which clears both
    -- cached pointers, so consulting `lookup_sdev` in the guest branch only
    -- is observationally identical.
    match lookup_svm env c req with
    | none =>
      -- IS_ERR_OR_NULL(svm): goto no_pasid; the stale sdev cache survives
      ({ svm := none, sdev := c.sdev },
       { result := .invalid, did_ioasid_find := need_svm_lookup c req, report := none,
         mm_fault := none, response := prq_no_pasid_resp req .invalid,
         handed_off := false })
    | some svm =>
      if svm.flags.guest_mode then
        match lookup_sdev c svm req with
        | some d =>
          if intel_svm_prq_report env d.dev req then
            -- goto prq_advance: no response here, cache retained
            ({ svm := some svm, sdev := some d },
             { result := .invalid, did_ioasid_find := need_svm_lookup c req,
               report := some true, mm_fault := none, response := none,
               handed_off := true })
          else
            ({ svm := none, sdev := none },
             { result := .invalid, did_ioasid_find := need_svm_lookup c req,
               report := some false, mm_fault := none,
               response := prq_no_pasid_resp req .invalid,
               handed_off := false })
        | none =>
          ({ svm := none, sdev := none },
           { result := .invalid, did_ioasid_find := need_svm_lookup c req, report := none,
             mm_fault := none, response := prq_no_pasid_resp req .invalid,
             handed_off := false })
      else
        match svm.mm with
        | none => host_exit req (need_svm_lookup c req) none .invalid
        | some mm =>
          if !is_canonical_address env.virtual_mask_shift (req.addr <<< 12) then
            host_exit req (need_svm_lookup c req) none .invalid
          else if !env.mmget_not_zero mm then
            host_exit req (need_svm_lookup c req) none .invalid
          else
            match env.find_extend_vma mm (req.addr <<< 12) with
            | none => host_exit req (need_svm_lookup c req) none .invalid
            | some vma =>
              if req.addr <<< 12 < vma.vm_start then
                host_exit req (need_svm_lookup c req) none .invalid
              else if access_error vma req then
                host_exit req (need_svm_lookup c req) none .invalid
              else
                if env.handle_mm_fault_error mm (req.addr <<< 12) req.wr_req then
                  host_exit req (need_svm_lookup c req) (some (req.addr <<< 12, req.wr_req)) .invalid
                else
                  host_exit req (need_svm_lookup c req) (some (req.addr <<< 12, req.wr_req)) .success

/-- Actions of one `prq_event_thread` invocation, in program order. -/
inductive thread_action where
  | clear_ppr
  | process (offset : Nat) (out : desc_outcome)
  | write_head (tail : Nat)
  | clear_pro
  | complete
deriving Repr, DecidableEq

/-- The while-loop of `prq_event_thread` (svm.c lines 1111-1250), with an
explicit fuel bound.  The `Bool` records whether the loop exited because
`head == tail` rather than by exhausting the fuel. -/
def prq_loop (env : prq_env) (c : prq_cache) (head tail : Nat) :
    Nat → List thread_action × Bool
  | 0 => ([], head == tail)
  | fuel + 1 =>
    if head == tail then ([], true)
    else
      let req := env.ring (head / 32)
      let s := handle_desc env c req
      let r := prq_loop env s.1 (prq_advance env.order head) tail fuel
      (.process head s.2 :: r.1, r.2)

/-- One invocation of `prq_event_thread` (svm.c lines 1093-1273): clear the
PPR latch, sample tail then head, run the loop, publish `PQH = tail`,
handle overflow, signal the completion. -/
def prq_event_thread (env : prq_env) (fuel : Nat) :
    List thread_action × Bool :=
  let tail := mask_read env.order env.pqt
  let head := mask_read env.order env.pqh
  let r := prq_loop env { svm := none, sdev := none } head tail fuel
  let over : List thread_action :=
    if env.prs_pro then
      if mask_read env.order env.pqh2 == mask_read env.order env.pqt2 then
        [.clear_pro]
      else []
    else []
  (.clear_ppr :: r.1 ++ .write_head tail :: (over ++ [.complete]), r.2)

/-- The offset processed by a `process` action. -/
def proc_offset : thread_action → Option Nat
  | .process o _ => some o
  | _ => none

theorem prq_loop_spec (env : prq_env) :
    ∀ (fuel : Nat) (c : prq_cache) (head : Nat) {tail : Nat},
      32 ∣ head → head < ring_bytes env.order →
      32 ∣ tail → tail < ring_bytes env.order →
      prq_dist env.order head tail ≤ fuel →
      (prq_loop env c head tail fuel).2 = true ∧
      (prq_loop env c head tail fuel).1.filterMap proc_offset =
        ring_offsets env.order head (prq_dist env.order head tail) := by
  intro fuel
  induction fuel with
  | zero =>
    intro c head tail h32h hh h32t ht hfuel
    have hd0 : prq_dist env.order head tail = 0 := by omega
    have heq : head = tail := (prq_dist_eq_zero hh ht h32h h32t).mp hd0
    subst heq
    rw [hd0]
    constructor
    · show (head == head) = true
      simp
    · show List.filterMap proc_offset [] = ring_offsets env.order head 0
      simp [ring_offsets]
  | succ fuel ih =>
    intro c head tail h32h hh h32t ht hfuel
    by_cases heq : head = tail
    · subst heq
      have hd0 : prq_dist env.order head head = 0 :=
        (prq_dist_eq_zero hh hh h32h h32h).mpr rfl
      rw [hd0]
      constructor
      · show (prq_loop env c head head (fuel + 1)).2 = true
        simp [prq_loop]
      · show (prq_loop env c head head (fuel + 1)).1.filterMap proc_offset =
          ring_offsets env.order head 0
        simp [prq_loop, ring_offsets]
    · have hbeq : (head == tail) = false := by
        simp [heq]
      have hstep := prq_dist_step hh ht h32h h32t heq
      have h32h2 : 32 ∣ prq_advance env.order head := prq_advance_align h32h
      have hh2 : prq_advance env.order head < ring_bytes env.order :=
        prq_advance_lt env.order head
      have hd1 : 1 ≤ prq_dist env.order head tail := by omega
      have hih := ih (handle_desc env c (env.ring (head / 32))).1
        (prq_advance env.order head) h32h2 hh2 h32t ht (by omega)
      constructor
      · show (prq_loop env c head tail (fuel + 1)).2 = true
        simp only [prq_loop, hbeq, Bool.false_eq_true, if_false]
        exact hih.1
      · show (prq_loop env c head tail (fuel + 1)).1.filterMap proc_offset =
          ring_offsets env.order head (prq_dist env.order head tail)
        simp only [prq_loop, hbeq, Bool.false_eq_true, if_false]
        rw [List.filterMap_cons]
        simp only [proc_offset]
        rw [hih.2]
        have hd : prq_dist env.order head tail =
            prq_dist env.order (prq_advance env.order head) tail + 1 := by
          omega
        rw [hd, ring_offsets_succ, Nat.mod_eq_of_lt hh,
          prq_advance_eq_mod h32h hh]

/-- A fixed example descriptor used by concrete instantiations. -/
def prq_req_ex : page_req_dsc :=
  { dtype := 1, pasid_present := true, priv_data_present := false,
    rid := 5, pasid := 7, exe_req := false, pm_req := false,
    rd_req := true, wr_req := false, lpig := true, prg_index := 3,
    addr := 0x1000, priv_data := (0, 0) }

/-- A fixed example environment used by concrete instantiations: a 4 KiB
ring with two pending descriptors and no live bindings. -/
def prq_env_ex : prq_env :=
  { order := 0, virtual_mask_shift := 47,
    ring := fun _ => prq_req_ex,
    pqt := 0x40, pqh := 0,
    ioasid_find := fun _ => none,
    mmget_not_zero := fun _ => false,
    find_extend_vma := fun _ _ => none,
    handle_mm_fault_error := fun _ _ _ => false,
    report_device_fault := fun _ _ => false,
    prs_pro := false, pqh2 := 0, pqt2 := 0 }

/-- Claim C1: in every invocation of the PRQ reader thread with enough fuel
to cover the batch, each 32-byte descriptor offset between the head it read
and the tail it read is processed exactly once (the processed offsets are
exactly `ring_offsets`, a duplicate-free list in ring order), and the head
register is written with the read tail value only after the whole batch. -/
theorem prq_reader_batch_exactly_once (env : prq_env) (fuel : Nat)
    (hfuel : prq_dist env.order (mask_read env.order env.pqh)
      (mask_read env.order env.pqt) ≤ fuel) :
    (prq_event_thread env fuel).2 = true ∧
    ∃ pre post,
      (prq_event_thread env fuel).1 =
        pre ++ thread_action.write_head (mask_read env.order env.pqt) :: post ∧
      pre.filterMap proc_offset =
        ring_offsets env.order (mask_read env.order env.pqh)
          (prq_dist env.order (mask_read env.order env.pqh)
            (mask_read env.order env.pqt)) ∧
      (∀ a ∈ post, proc_offset a = none) ∧
      (ring_offsets env.order (mask_read env.order env.pqh)
        (prq_dist env.order (mask_read env.order env.pqh)
          (mask_read env.order env.pqt))).Nodup := by
  have h32h := mask_read_align env.order env.pqh
  have hh := mask_read_lt env.order env.pqh
  have h32t := mask_read_align env.order env.pqt
  have ht := mask_read_lt env.order env.pqt
  have hspec := prq_loop_spec env fuel { svm := none, sdev := none }
    (mask_read env.order env.pqh) h32h hh h32t ht hfuel
  constructor
  · exact hspec.1
  · refine ⟨thread_action.clear_ppr ::
      (prq_loop env { svm := none, sdev := none }
        (mask_read env.order env.pqh) (mask_read env.order env.pqt) fuel).1,
      (if env.prs_pro then
        if mask_read env.order env.pqh2 == mask_read env.order env.pqt2 then
          [thread_action.clear_pro]
        else []
       else []) ++ [thread_action.complete], ?_, ?_, ?_, ?_⟩
    · show thread_action.clear_ppr :: _ ++ _ :: _ = _
      simp
    · rw [List.filterMap_cons]
      show List.filterMap proc_offset _ = _
      exact hspec.2
    · intro a ha
      rw [List.mem_append] at ha
      rcases ha with ha | ha
      · split at ha
        · split at ha
          · rw [List.mem_singleton] at ha
            subst ha
            rfl
          · simp at ha
        · simp at ha
      · rw [List.mem_singleton] at ha
        subst ha
        rfl
    · exact ring_offsets_nodup prq_dist_lt

/-- Concrete instantiation of `prq_reader_batch_exactly_once` on
`prq_env_ex` (two pending descriptors, fuel 2). -/
theorem prq_reader_batch_exactly_once_witness :
    (prq_event_thread prq_env_ex 2).2 = true ∧
    ∃ pre post,
      (prq_event_thread prq_env_ex 2).1 =
        pre ++ thread_action.write_head
          (mask_read prq_env_ex.order prq_env_ex.pqt) :: post ∧
      pre.filterMap proc_offset =
        ring_offsets prq_env_ex.order
          (mask_read prq_env_ex.order prq_env_ex.pqh)
          (prq_dist prq_env_ex.order
            (mask_read prq_env_ex.order prq_env_ex.pqh)
            (mask_read prq_env_ex.order prq_env_ex.pqt)) ∧
      (∀ a ∈ post, proc_offset a = none) ∧
      (ring_offsets prq_env_ex.order
        (mask_read prq_env_ex.order prq_env_ex.pqh)
        (prq_dist prq_env_ex.order
          (mask_read prq_env_ex.order prq_env_ex.pqh)
          (mask_read prq_env_ex.order prq_env_ex.pqt))).Nodup :=
  prq_reader_batch_exactly_once prq_env_ex 2 (by decide)

theorem prq_no_pasid_resp_isSome (req : page_req_dsc) (r : resp_code) :
    (prq_no_pasid_resp req r).isSome = (req.lpig || req.priv_data_present) := by
  unfold prq_no_pasid_resp
  split <;> simp_all

theorem prq_no_pasid_resp_code {req : page_req_dsc} {r : resp_code}
    {resp : pgrp_resp} (h : prq_no_pasid_resp req r = some resp) :
    resp.code = r := by
  unfold prq_no_pasid_resp at h
  split at h
  · cases h
    rfl
  · cases h

theorem prq_no_pasid_resp_priv {req : page_req_dsc} {r : resp_code}
    {resp : pgrp_resp} (h : prq_no_pasid_resp req r = some resp)
    (hp : req.priv_data_present = true) :
    resp.priv_data = some req.priv_data := by
  unfold prq_no_pasid_resp at h
  split at h
  · cases h
    simp [hp]
  · cases h

/-- Claim C4: a descriptor lacking `pasid_present`, or with
privileged-mode together with a read or write request, or with exec and
read together, is handled without any binding lookup and without any fault
resolution (no fault-sink report, no `handle_mm_fault`), and the response
code computed for it is INVALID. -/
theorem prq_bad_request_rejected (env : prq_env) (c : prq_cache)
    (req : page_req_dsc)
    (h : req.pasid_present = false ∨
      (req.pm_req = true ∧ (req.rd_req = true ∨ req.wr_req = true)) ∨
      (req.exe_req = true ∧ req.rd_req = true)) :
    (handle_desc env c req).2.result = resp_code.invalid ∧
    (handle_desc env c req).2.did_ioasid_find = false ∧
    (handle_desc env c req).2.report = none ∧
    (handle_desc env c req).2.mm_fault = none ∧
    (handle_desc env c req).2.response = prq_no_pasid_resp req .invalid := by
  by_cases h1 : req.pasid_present = false
  · simp [handle_desc, h1]
  · have h1' : req.pasid_present = true := by
      revert h1; cases req.pasid_present <;> simp
    by_cases h2 : (req.pm_req && (req.rd_req || req.wr_req)) = true
    · simp [handle_desc, h1', h2]
    · have h3 : (req.exe_req && req.rd_req) = true := by
        rcases h with h | h | h
        · exact absurd h1' (by simp [h])
        · exact absurd (by rcases h.2 with h4 | h4 <;> simp [h.1, h4]) h2
        · simp [h.1, h.2]
      simp [handle_desc, h1', h2, h3]

/-- Concrete instantiation of `prq_bad_request_rejected`: a descriptor
with the privileged-mode bit and a read request. -/
theorem prq_bad_request_rejected_witness :
    (handle_desc prq_env_ex { svm := none, sdev := none }
      { prq_req_ex with pm_req := true }).2.result = resp_code.invalid ∧
    (handle_desc prq_env_ex { svm := none, sdev := none }
      { prq_req_ex with pm_req := true }).2.did_ioasid_find = false ∧
    (handle_desc prq_env_ex { svm := none, sdev := none }
      { prq_req_ex with pm_req := true }).2.report = none ∧
    (handle_desc prq_env_ex { svm := none, sdev := none }
      { prq_req_ex with pm_req := true }).2.mm_fault = none ∧
    (handle_desc prq_env_ex { svm := none, sdev := none }
      { prq_req_ex with pm_req := true }).2.response =
        prq_no_pasid_resp { prq_req_ex with pm_req := true } .invalid :=
  prq_bad_request_rejected prq_env_ex { svm := none, sdev := none }
    { prq_req_ex with pm_req := true } (by right; left; exact ⟨rfl, Or.inl rfl⟩)

set_option maxHeartbeats 4000000 in
/-- Claim C5: processing one descriptor posts a page-group response iff the
descriptor has `lpig` or `priv_data_present` set and was not a guest-mode
descriptor successfully handed to the external fault sink; the response is
an `Option` (at most one submission per descriptor), and when private data
is present the same 16 bytes are echoed back. -/
theorem prq_response_iff (env : prq_env) (c : prq_cache)
    (req : page_req_dsc) :
    ((handle_desc env c req).2.response.isSome =
      ((req.lpig || req.priv_data_present) &&
        !(handle_desc env c req).2.handed_off)) ∧
    (∀ resp, (handle_desc env c req).2.response = some resp →
      req.priv_data_present = true → resp.priv_data = some req.priv_data) := by
  unfold handle_desc
  repeat' split
  all_goals
    constructor
  all_goals
    first
    | (((repeat' split) <;> simp [host_exit, prq_no_pasid_resp_isSome]);
       done)
    | (intro resp h hp
       (repeat' split at h) <;>
       first
       | exact prq_no_pasid_resp_priv h hp
       | (simp only [host_exit] at h
          exact prq_no_pasid_resp_priv h hp)
       | cases h)

/-- Claim C6: for a host-mode binding with an address space, a descriptor
whose page address (`addr << 12`) is not canonical is answered INVALID and
`handle_mm_fault` is never invoked for it. -/
theorem host_noncanonical_invalid (env : prq_env) (c : prq_cache)
    (req : page_req_dsc) (svm : intel_svm) (m : Nat)
    (h1 : req.pasid_present = true)
    (h2 : (req.pm_req && (req.rd_req || req.wr_req)) = false)
    (h3 : (req.exe_req && req.rd_req) = false)
    (hsvm : lookup_svm env c req = some svm)
    (hguest : svm.flags.guest_mode = false)
    (hmm : svm.mm = some m)
    (hcanon : is_canonical_address env.virtual_mask_shift
      (req.addr <<< 12) = false) :
    (handle_desc env c req).2.result = resp_code.invalid ∧
    (handle_desc env c req).2.mm_fault = none ∧
    (handle_desc env c req).2.response = prq_no_pasid_resp req .invalid := by
  simp [handle_desc, h1, h2, h3, hsvm, hguest, hmm, hcanon, host_exit]

/-- A host-mode example binding with a live address space and no device
list entries. -/
def svm_host_ex : intel_svm :=
  { pasid := 7, flags := { supervisor_mode := false, guest_mode := false },
    mm := some 1, devs := [] }

/-- Environment in which pasid 7 resolves to `svm_host_ex` and the fault
path succeeds. -/
def env_host_ex : prq_env :=
  { prq_env_ex with
    ioasid_find := fun p => if p == 7 then some svm_host_ex else none,
    mmget_not_zero := fun _ => true,
    find_extend_vma := fun _ _ =>
      some { vm_start := 0, vm_read := true, vm_write := true,
             vm_exec := false } }

/-- Concrete instantiation of `host_noncanonical_invalid`: page address
`0x8000000000 << 12 = 2^51` is not canonical for a 48-bit virtual space. -/
theorem host_noncanonical_invalid_witness :
    (handle_desc env_host_ex { svm := none, sdev := none }
      { prq_req_ex with addr := 0x8000000000 }).2.result =
        resp_code.invalid ∧
    (handle_desc env_host_ex { svm := none, sdev := none }
      { prq_req_ex with addr := 0x8000000000 }).2.mm_fault = none ∧
    (handle_desc env_host_ex { svm := none, sdev := none }
      { prq_req_ex with addr := 0x8000000000 }).2.response =
        prq_no_pasid_resp { prq_req_ex with addr := 0x8000000000 } .invalid :=
  host_noncanonical_invalid env_host_ex { svm := none, sdev := none }
    { prq_req_ex with addr := 0x8000000000 } svm_host_ex 1
    rfl rfl rfl (by decide) rfl rfl (by decide)

/-- Claim C10: (host half) a valid descriptor resolved through a
non-guest-mode binding can be answered SUCCESS even when no device-binding
in the binding's device set matches the descriptor's source-id; (guest
half) a guest-mode descriptor without a matching device-binding, or whose
report to the fault sink fails, is answered INVALID (with a response when
required). -/
theorem host_resolution_needs_no_sdev :
    (∀ (env : prq_env) (c : prq_cache) (req : page_req_dsc)
       (svm : intel_svm) (m : Nat) (vma : vm_area),
      req.pasid_present = true →
      (req.pm_req && (req.rd_req || req.wr_req)) = false →
      (req.exe_req && req.rd_req) = false →
      lookup_svm env c req = some svm →
      svm.flags.guest_mode = false →
      lookup_sdev c svm req = none →
      svm.mm = some m →
      is_canonical_address env.virtual_mask_shift (req.addr <<< 12) = true →
      env.mmget_not_zero m = true →
      env.find_extend_vma m (req.addr <<< 12) = some vma →
      ¬(req.addr <<< 12 < vma.vm_start) →
      access_error vma req = false →
      env.handle_mm_fault_error m (req.addr <<< 12) req.wr_req = false →
      (handle_desc env c req).2.result = resp_code.success) ∧
    (∀ (env : prq_env) (c : prq_cache) (req : page_req_dsc)
       (svm : intel_svm),
      req.pasid_present = true →
      (req.pm_req && (req.rd_req || req.wr_req)) = false →
      (req.exe_req && req.rd_req) = false →
      lookup_svm env c req = some svm →
      svm.flags.guest_mode = true →
      (lookup_sdev c svm req = none ∨
        ∃ d, lookup_sdev c svm req = some d ∧
          intel_svm_prq_report env d.dev req = false) →
      (handle_desc env c req).2.result = resp_code.invalid ∧
      (handle_desc env c req).2.handed_off = false ∧
      (handle_desc env c req).2.response = prq_no_pasid_resp req .invalid) := by
  constructor
  · intro env c req svm m vma h1 h2 h3 hsvm hguest _ hmm hcanon hmmget
      hvma hlt hacc hfault
    simp [handle_desc, h1, h2, h3, hsvm, hguest, hmm, hcanon, hmmget, hvma,
      hlt, hacc, hfault, host_exit]
  · intro env c req svm h1 h2 h3 hsvm hguest hsd
    rcases hsd with hsd | ⟨d, hsd, hrep⟩
    · simp [handle_desc, h1, h2, h3, hsvm, hguest, hsd]
    · simp [handle_desc, h1, h2, h3, hsvm, hguest, hsd, hrep]

/-- A guest-mode example binding with an empty device set. -/
def svm_guest_ex : intel_svm :=
  { pasid := 9, flags := { supervisor_mode := false, guest_mode := true },
    mm := none, devs := [] }

/-- Environment in which pasid 9 resolves to `svm_guest_ex`. -/
def env_guest_ex : prq_env :=
  { prq_env_ex with
    ioasid_find := fun p => if p == 9 then some svm_guest_ex else none }

/-- Concrete instantiation of `host_resolution_needs_no_sdev`: the host
half succeeds on `env_host_ex` with an empty device set; the guest half
answers INVALID on `env_guest_ex` with no matching device-binding. -/
theorem host_resolution_needs_no_sdev_witness :
    (handle_desc env_host_ex { svm := none, sdev := none }
      prq_req_ex).2.result = resp_code.success ∧
    ((handle_desc env_guest_ex { svm := none, sdev := none }
      { prq_req_ex with pasid := 9 }).2.result = resp_code.invalid ∧
     (handle_desc env_guest_ex { svm := none, sdev := none }
      { prq_req_ex with pasid := 9 }).2.handed_off = false ∧
     (handle_desc env_guest_ex { svm := none, sdev := none }
      { prq_req_ex with pasid := 9 }).2.response =
        prq_no_pasid_resp { prq_req_ex with pasid := 9 } .invalid) :=
  ⟨host_resolution_needs_no_sdev.1 env_host_ex { svm := none, sdev := none }
      prq_req_ex svm_host_ex 1
      { vm_start := 0, vm_read := true, vm_write := true, vm_exec := false }
      rfl rfl rfl (by decide) rfl (by decide) rfl (by decide) rfl (by decide)
      (by decide) (by decide) rfl,
   host_resolution_needs_no_sdev.2 env_guest_ex { svm := none, sdev := none }
      { prq_req_ex with pasid := 9 } svm_guest_ex
      rfl rfl rfl (by decide) rfl (Or.inl (by decide))⟩

/-! ### The PRQ drain protocol (`intel_svm_drain_prq`, svm.c 956-1026) -/

/-- Symbolic invalidation-queue descriptors for the drain batch built at
svm.c lines 1006-1018.  The bit-level `QI_*` encodings live in a header
outside this repository; the constructors record the descriptor kinds and
the fields svm.c fills in: a fenced wait descriptor with status write, a
PASID-scoped (non-global per-PASID granularity) IOTLB invalidation, and a
device-TLB invalidation carrying sid/qdep/pfsid. -/
inductive qi_desc where
  | iwd (fence : Bool) (status_write : Bool)
  | eiotlb (pasid did : Nat) (gran_nong_pasid : Bool)
  | dev_eiotlb (pasid sid qdep pfsid : Nat)
deriving Repr, DecidableEq

/-- One `prq_retry` iteration's view of the hardware: raw PQT/PQH register
values and the ring contents. -/
structure drain_snapshot where
  pqt : Nat
  pqh : Nat
  ring : Nat → page_req_dsc

/-- External state sampled by `intel_svm_drain_prq`: the per-iteration
ring snapshots of phase 1 and the per-submission `DMA_PRS_PRO` status
reads of phase 2. -/
structure drain_env where
  snap : Nat → drain_snapshot
  pro : Nat → Bool

/-- Device/domain configuration consulted by `intel_svm_drain_prq`. -/
structure drain_cfg where
  has_info : Bool
  is_pci : Bool
  pri_enabled : Bool
  sid : Nat
  did : Nat
  qdep : Nat
  pfsid : Nat
deriving Repr, DecidableEq

/-- The phase-1 ring walk (svm.c lines 989-1000), examining `n`
descriptors from `head`: `true` means no descriptor with `pasid_present`
and a matching pasid was seen (the walk reached `tail`); `false` means the
walk stopped at a matching descriptor (the source then waits on
`prq_complete` and rescans). -/
def drain_scan (order : Nat) (ring : Nat → page_req_dsc) (pasid : Nat)
    (head : Nat) : Nat → Bool
  | 0 => true
  | n + 1 =>
    if (ring (head / 32)).pasid_present && (ring (head / 32)).pasid == pasid
    then false
    else drain_scan order ring pasid (prq_advance order head) n

/-- Whether snapshot `i` contains no descriptor matching `pasid` between
its (masked) head and tail. -/
def snapshot_clean (env : drain_env) (order pasid i : Nat) : Bool :=
  let s := env.snap i
  let tail := mask_read order s.pqt
  let head := mask_read order s.pqh
  drain_scan order s.ring pasid head (prq_dist order head tail)

/-- Phase 1 of the drain (svm.c lines 985-1000): rescan fresh snapshots,
waiting on the batch-done completion in between, until one holds no
matching descriptor; return that snapshot's index. -/
def drain_phase1 (env : drain_env) (order pasid : Nat) (i : Nat) :
    Nat → Option Nat
  | 0 => none
  | fuel + 1 =>
    if snapshot_clean env order pasid i then some i
    else drain_phase1 env order pasid (i + 1) fuel

/-- Phase 2 of the drain (svm.c lines 1019-1025): submit the
three-descriptor batch, read `DMA_PRS_PRO`, and resubmit until the bit
reads clear.  `pro k` is the status read following the `(k+1)`-st
submission; the result is the total number of submissions. -/
def drain_phase2 (env : drain_env) (k : Nat) : Nat → Option Nat
  | 0 => none
  | fuel + 1 =>
    if env.pro k then drain_phase2 env (k + 1) fuel
    else some (k + 1)

/-- The three-descriptor drain batch of svm.c lines 1006-1018. -/
def drain_batch (cfg : drain_cfg) (pasid : Nat) : List qi_desc :=
  [ .iwd true true,
    .eiotlb pasid cfg.did true,
    .dev_eiotlb pasid cfg.sid cfg.qdep cfg.pfsid ]

/-- Result of `intel_svm_drain_prq`: an early return (guard failed), or a
completed drain recording the clean snapshot index, the number of batch
submissions, and the submitted batch. -/
inductive drain_ret where
  | early_return
  | drained (clean_snap submissions : Nat) (batch : List qi_desc)
deriving Repr, DecidableEq

/-- `intel_svm_drain_prq` (svm.c lines 956-1026), with a fuel bound on
both retry loops; `none` models non-return within the fuel. -/
def intel_svm_drain_prq (cfg : drain_cfg) (env : drain_env)
    (order pasid fuel : Nat) : Option drain_ret :=
  if !cfg.has_info || !cfg.is_pci then some .early_return
  else if !cfg.pri_enabled then some .early_return
  else
    match drain_phase1 env order pasid 0 fuel with
    | none => none
    | some i =>
      match drain_phase2 env 0 fuel with
      | none => none
      | some n => some (.drained i n (drain_batch cfg pasid))

/-- Number of ring scans a drain outcome performed. -/
def drain_scans : drain_ret → Nat
  | .early_return => 0
  | .drained i _ _ => i + 1

/-- Number of invalidation batches a drain outcome submitted. -/
def drain_submissions : drain_ret → Nat
  | .early_return => 0
  | .drained _ n _ => n

/-- A scan that reports clean saw no matching descriptor at any of the
`n` visited ring offsets. -/
theorem drain_scan_clean_iff (order : Nat) (ring : Nat → page_req_dsc)
    (pasid : Nat) :
    ∀ (n head : Nat), 32 ∣ head → head < ring_bytes order →
      (drain_scan order ring pasid head n = true ↔
        ∀ o ∈ ring_offsets order head n,
          ¬((ring (o / 32)).pasid_present = true ∧
            (ring (o / 32)).pasid = pasid)) := by
  intro n
  induction n with
  | zero =>
    intro head h32 hlt
    simp [drain_scan, ring_offsets]
  | succ n ih =>
    intro head h32 hlt
    rw [ring_offsets_succ, Nat.mod_eq_of_lt hlt]
    constructor
    · intro h o ho
      rw [List.mem_cons] at ho
      unfold drain_scan at h
      split at h
      · cases h
      · next hmatch =>
        rcases ho with ho | ho
        · subst ho
          intro hcon
          apply hmatch
          simp [hcon.1, hcon.2]
        · have := (ih (prq_advance order head) (prq_advance_align h32)
            (prq_advance_lt order head)).mp h
          rw [prq_advance_eq_mod h32 hlt] at this
          exact this o ho
    · intro h
      unfold drain_scan
      split
      · next hmatch =>
        exfalso
        apply h head (List.mem_cons_self _ _)
        constructor
        · exact (Bool.and_eq_true_iff.mp hmatch).1
        · exact eq_of_beq (Bool.and_eq_true_iff.mp hmatch).2
      · apply (ih (prq_advance order head) (prq_advance_align h32)
          (prq_advance_lt order head)).mpr
        rw [prq_advance_eq_mod h32 hlt]
        intro o ho
        exact h o (List.mem_cons_of_mem _ ho)

/-- Phase 1 returns only a clean snapshot, and every snapshot it rescanned
before it was not clean. -/
theorem drain_phase1_spec (env : drain_env) (order pasid : Nat) :
    ∀ (fuel i j : Nat), drain_phase1 env order pasid i fuel = some j →
      i ≤ j ∧ snapshot_clean env order pasid j = true ∧
      ∀ k, i ≤ k → k < j → snapshot_clean env order pasid k = false := by
  intro fuel
  induction fuel with
  | zero =>
    intro i j h
    cases h
  | succ fuel ih =>
    intro i j h
    unfold drain_phase1 at h
    split at h
    · next hc =>
      cases h
      refine ⟨Nat.le_refl _, hc, ?_⟩
      intro k hk1 hk2
      omega
    · next hc =>
      obtain ⟨h1, h2, h3⟩ := ih (i + 1) j h
      refine ⟨by omega, h2, ?_⟩
      intro k hk1 hk2
      rcases Nat.eq_or_lt_of_le hk1 with heq | hlt
      · have hki : k = i := heq.symm
        subst hki
        revert hc
        cases snapshot_clean env order pasid k <;> simp
      · exact h3 k (by omega) hk2

/-- Phase 2 returns only after a clear `DMA_PRS_PRO` read, with every
earlier read set (each followed by a resubmission). -/
theorem drain_phase2_spec (env : drain_env) :
    ∀ (fuel k n : Nat), drain_phase2 env k fuel = some n →
      k < n ∧ env.pro (n - 1) = false ∧
      ∀ j, k ≤ j → j < n - 1 → env.pro j = true := by
  intro fuel
  induction fuel with
  | zero =>
    intro k n h
    cases h
  | succ fuel ih =>
    intro k n h
    unfold drain_phase2 at h
    split at h
    · next hc =>
      obtain ⟨h1, h2, h3⟩ := ih (k + 1) n h
      refine ⟨by omega, h2, ?_⟩
      intro j hj1 hj2
      rcases Nat.eq_or_lt_of_le hj1 with heq | hlt
      · subst heq
        exact hc
      · exact h3 j (by omega) hj2
    · next hc =>
      cases h
      refine ⟨by omega, ?_, ?_⟩
      · simp only [Nat.add_sub_cancel]
        revert hc
        cases env.pro k <;> simp
      · intro j hj1 hj2
        omega

/-- Claim C2: the drain returns (for a PRI-enabled PCI device) only when
(a) its final ring scan found no descriptor with `pasid_present` and a
matching pasid between the sampled head and tail — every earlier snapshot
had one, and was followed by a wait and rescan — and (b) the last
`DMA_PRS_PRO` read after submitting the fenced three-descriptor batch
(wait-with-status, PASID-scoped IOTLB invalidation, device-TLB
invalidation) was clear, every earlier read being set and followed by a
resubmission. -/
theorem drain_returns_only_when_drained (cfg : drain_cfg) (env : drain_env)
    (order pasid fuel : Nat) (i n : Nat) (batch : List qi_desc)
    (h : intel_svm_drain_prq cfg env order pasid fuel =
      some (.drained i n batch)) :
    (∀ o ∈ ring_offsets order (mask_read order (env.snap i).pqh)
        (prq_dist order (mask_read order (env.snap i).pqh)
          (mask_read order (env.snap i).pqt)),
      ¬(((env.snap i).ring (o / 32)).pasid_present = true ∧
        ((env.snap i).ring (o / 32)).pasid = pasid)) ∧
    (∀ k < i, snapshot_clean env order pasid k = false) ∧
    1 ≤ n ∧ env.pro (n - 1) = false ∧
    (∀ j < n - 1, env.pro j = true) ∧
    batch = drain_batch cfg pasid := by
  unfold intel_svm_drain_prq at h
  split at h
  · cases h
  · split at h
    · cases h
    · split at h
      · cases h
      · next i2 hp1 =>
        split at h
        · cases h
        · next n2 hp2 =>
          cases h
          obtain ⟨_, hclean, hbefore⟩ :=
            drain_phase1_spec env order pasid fuel 0 i hp1
          obtain ⟨hn, hpro, hpro2⟩ := drain_phase2_spec env fuel 0 n hp2
          refine ⟨?_, ?_, by omega, hpro, ?_, rfl⟩
          · have := (drain_scan_clean_iff order (env.snap i).ring pasid
              (prq_dist order (mask_read order (env.snap i).pqh)
                (mask_read order (env.snap i).pqt))
              (mask_read order (env.snap i).pqh)
              (mask_read_align order (env.snap i).pqh)
              (mask_read_lt order (env.snap i).pqh)).mp hclean
            exact this
          · intro k hk
            exact hbefore k (Nat.zero_le k) hk
          · intro j hj
            exact hpro2 j (Nat.zero_le j) hj

/-- Claim C9: if the device has no domain info, is not PCI, or lacks PRI,
the drain returns immediately: no ring scan is performed and no
invalidation batch is submitted. -/
theorem drain_requires_pri (cfg : drain_cfg) (env : drain_env)
    (order pasid fuel : Nat)
    (h : cfg.has_info = false ∨ cfg.is_pci = false ∨
      cfg.pri_enabled = false) :
    intel_svm_drain_prq cfg env order pasid fuel =
      some drain_ret.early_return ∧
    ∀ r, intel_svm_drain_prq cfg env order pasid fuel = some r →
      drain_scans r = 0 ∧ drain_submissions r = 0 := by
  have hret : intel_svm_drain_prq cfg env order pasid fuel =
      some drain_ret.early_return := by
    unfold intel_svm_drain_prq
    rcases h with h | h | h
    · simp [h]
    · simp [h]
    · split
      · rfl
      · simp [h]
  refine ⟨hret, ?_⟩
  intro r hr
  rw [hret] at hr
  cases hr
  exact ⟨rfl, rfl⟩

/-- A drain environment: snapshot 0 still holds a matching descriptor in
the scanned window, snapshot 1 is clean; the first status read shows the
pending-response bit set, the second shows it clear. -/
def drain_env_ex : drain_env :=
  { snap := fun i =>
      { pqt := 0x40, pqh := 0,
        ring := fun _ =>
          if i == 0 then prq_req_ex
          else { prq_req_ex with pasid_present := false } },
    pro := fun k => k == 0 }

/-- A PRI-enabled PCI drain configuration. -/
def drain_cfg_ex : drain_cfg :=
  { has_info := true, is_pci := true, pri_enabled := true,
    sid := 0x100, did := 2, qdep := 16, pfsid := 0x100 }

/-- Concrete instantiation of `drain_returns_only_when_drained` on
`drain_env_ex`: the drain completes at snapshot 1 after 2 submissions. -/
theorem drain_returns_only_when_drained_witness :
    (∀ o ∈ ring_offsets 0 (mask_read 0 (drain_env_ex.snap 1).pqh)
        (prq_dist 0 (mask_read 0 (drain_env_ex.snap 1).pqh)
          (mask_read 0 (drain_env_ex.snap 1).pqt)),
      ¬(((drain_env_ex.snap 1).ring (o / 32)).pasid_present = true ∧
        ((drain_env_ex.snap 1).ring (o / 32)).pasid = 7)) ∧
    (∀ k < 1, snapshot_clean drain_env_ex 0 7 k = false) ∧
    1 ≤ 2 ∧ drain_env_ex.pro (2 - 1) = false ∧
    (∀ j < 2 - 1, drain_env_ex.pro j = true) ∧
    drain_batch drain_cfg_ex 7 = drain_batch drain_cfg_ex 7 :=
  drain_returns_only_when_drained drain_cfg_ex drain_env_ex 0 7 4 1 2
    (drain_batch drain_cfg_ex 7) (by decide)

/-- Concrete instantiation of `drain_requires_pri`: PRI disabled. -/
theorem drain_requires_pri_witness :
    intel_svm_drain_prq { drain_cfg_ex with pri_enabled := false }
      drain_env_ex 0 7 4 = some drain_ret.early_return ∧
    ∀ r, intel_svm_drain_prq { drain_cfg_ex with pri_enabled := false }
        drain_env_ex 0 7 4 = some r →
      drain_scans r = 0 ∧ drain_submissions r = 0 :=
  drain_requires_pri { drain_cfg_ex with pri_enabled := false }
    drain_env_ex 0 7 4 (Or.inr (Or.inr rfl))

/-! ### mmu-notifier range invalidation (svm.c 247-300) -/

/-- Bit length, modelling the kernel's `fls_long`. -/
def fls_long (x : Nat) : Nat := Nat.size x

/-- `__roundup_pow_of_two(n) = 1UL << fls_long(n - 1)`. -/
def roundup_pow_of_two (n : Nat) : Nat := 1 <<< fls_long (n - 1)

/-- `ilog2(v)` for the power-of-two arguments it receives here:
`fls(v) - 1`. -/
def ilog2 (v : Nat) : Nat := fls_long v - 1

/-- `ALIGN_DOWN(x, a)` for power-of-two `a`. -/
def ALIGN_DOWN (x a : Nat) : Nat := x / a * a

/-- `ALIGN(x, a)` for power-of-two `a`. -/
def ALIGN (x a : Nat) : Nat := (x + a - 1) / a * a

/-- A per-PASID IOTLB flush request issued to one device:
`qi_flush_piotlb(iommu, did, pasid, address, pages, ih)` keyed by its
address/pages arguments. -/
structure svm_flush where
  address : Nat
  pages : Nat
deriving Repr, DecidableEq

/-- `__flush_svm_range_dev` (svm.c lines 247-262): `WARN_ON(!pages)`
skips the flush; otherwise one per-PASID IOTLB flush is issued (plus a
device-TLB flush when ATS is enabled, carrying the same address and
`order_base_2(pages)`). -/
def flush_svm_range_dev_one (address pages : Nat) : List svm_flush :=
  if pages = 0 then [] else [{ address := address, pages := pages }]

/-- The sub-invalidation loop of `intel_flush_svm_range_dev` (svm.c
lines 274-277): `while (start < end) { __flush_svm_range_dev(...,
align >> VTD_PAGE_SHIFT); start += align; }`.  `align` is positive at the
single call site (`1 << (VTD_PAGE_SHIFT + shift)`); the guard makes the
termination measure explicit. -/
def flush_range_loop (align s e : Nat) : List svm_flush :=
  if h : 0 < align ∧ s < e then
    flush_svm_range_dev_one s (align >>> 12) ++
      flush_range_loop align (s + align) e
  else []
termination_by e - s
decreasing_by
  omega

/-- `intel_flush_svm_range_dev` (svm.c lines 264-278). -/
def intel_flush_svm_range_dev (address pages : Nat) : List svm_flush :=
  flush_range_loop (1 <<< (12 + ilog2 (roundup_pow_of_two pages)))
    (ALIGN_DOWN address (1 <<< (12 + ilog2 (roundup_pow_of_two pages))))
    (ALIGN (address + (pages <<< 12))
      (1 <<< (12 + ilog2 (roundup_pow_of_two pages))))

/-- `intel_invalidate_range` (svm.c lines 292-300): the page count is
`(end - start + PAGE_SIZE - 1) >> VTD_PAGE_SHIFT`. -/
def intel_invalidate_range (start e : Nat) : List svm_flush :=
  intel_flush_svm_range_dev start ((e - start + 4096 - 1) >>> 12)

theorem size_pred_eq_clog {p : Nat} (hp : 1 ≤ p) :
    Nat.size (p - 1) = Nat.clog 2 p := by
  apply Nat.le_antisymm
  · rw [Nat.size_le]
    have h1 := Nat.le_pow_clog (by norm_num : 1 < 2) p
    omega
  · rw [← Nat.le_pow_iff_clog_le (by norm_num : 1 < 2)]
    have h1 := Nat.lt_size_self (p - 1)
    omega

theorem ilog2_roundup_eq_clog {p : Nat} (hp : 1 ≤ p) :
    ilog2 (roundup_pow_of_two p) = Nat.clog 2 p := by
  unfold ilog2 roundup_pow_of_two fls_long
  rw [Nat.shiftLeft_eq, one_mul, Nat.size_pow, size_pred_eq_clog hp]
  omega

theorem ALIGN_DOWN_le (x a : Nat) : ALIGN_DOWN x a ≤ x :=
  Nat.div_mul_le_self x a

theorem ALIGN_DOWN_dvd (x a : Nat) : a ∣ ALIGN_DOWN x a :=
  ⟨x / a, Nat.mul_comm (x / a) a⟩

theorem le_ALIGN (x : Nat) {a : Nat} (ha : 0 < a) : x ≤ ALIGN x a := by
  unfold ALIGN
  have hdm : (x + a - 1) / a * a + (x + a - 1) % a = x + a - 1 := by
    rw [Nat.mul_comm]
    exact Nat.div_add_mod _ _
  have hlt := Nat.mod_lt (x + a - 1) ha
  omega

/-- Every flush the loop issues covers `align >> 12` pages, starts on an
`align`-aligned address within `[s, e)`. -/
theorem flush_range_loop_mem :
    ∀ (n align s e : Nat), e - s ≤ n → align ∣ s →
      ∀ f ∈ flush_range_loop align s e,
        f.pages = align >>> 12 ∧ align ∣ f.address ∧ s ≤ f.address ∧
          f.address < e := by
  intro n
  induction n with
  | zero =>
    intro align s e hn hdvd f hf
    rw [flush_range_loop] at hf
    split at hf
    · next hc => omega
    · cases hf
  | succ n ih =>
    intro align s e hn hdvd f hf
    rw [flush_range_loop] at hf
    split at hf
    · next hc =>
      rw [List.mem_append] at hf
      rcases hf with hf | hf
      · unfold flush_svm_range_dev_one at hf
        split at hf
        · cases hf
        · rw [List.mem_singleton] at hf
          subst hf
          exact ⟨rfl, hdvd, Nat.le_refl _, hc.2⟩
      · have hrec := ih align (s + align) e (by omega)
          (Dvd.dvd.add hdvd (dvd_refl align)) f hf
        exact ⟨hrec.1, hrec.2.1, by omega, hrec.2.2.2⟩
    · cases hf

/-- The flushes the loop issues tile `[s, e)`: any point of the interval
lies inside one of them. -/
theorem flush_range_loop_cover :
    ∀ (n align s e x : Nat), e - s ≤ n → 0 < align >>> 12 → s ≤ x →
      x < e →
      ∃ f ∈ flush_range_loop align s e,
        f.address ≤ x ∧ x < f.address + align := by
  intro n
  induction n with
  | zero =>
    intro align s e x hn hpos hsx hxe
    omega
  | succ n ih =>
    intro align s e x hn hpos hsx hxe
    have halign : 0 < align := by
      rw [Nat.shiftRight_eq_div_pow] at hpos
      by_contra hz
      have : align = 0 := by omega
      simp [this] at hpos
    rw [flush_range_loop]
    rw [dif_pos ⟨halign, by omega⟩]
    by_cases hx : x < s + align
    · refine ⟨{ address := s, pages := align >>> 12 }, ?_, ?_, ?_⟩
      · rw [List.mem_append]
        left
        unfold flush_svm_range_dev_one
        rw [if_neg (by omega)]
        exact List.mem_singleton.mpr rfl
      · show s ≤ x
        omega
      · show x < s + align
        omega
    · obtain ⟨f, hf, hfx⟩ := ih align (s + align) e x (by omega) hpos
        (by omega) hxe
      exact ⟨f, List.mem_append.mpr (Or.inr hf), hfx⟩

/-- Claim C8: for `pages = ceil((end - start)/4KiB)`, the per-device
IOTLB flushes issued by the range-invalidation callback are a sequence of
sub-invalidations, each covering `2^ceil(log2 pages)` pages and aligned to
that size, lying between `start` rounded down to that alignment and
`start + pages*4KiB` rounded up to it, and their union covers
`[start, end)`. -/
theorem range_invalidated_flushes (start e : Nat) (h : start < e) :
    (∀ f ∈ intel_invalidate_range start e,
      f.pages = 2 ^ Nat.clog 2 ((e - start + 4096 - 1) >>> 12) ∧
      2 ^ (12 + Nat.clog 2 ((e - start + 4096 - 1) >>> 12)) ∣ f.address ∧
      ALIGN_DOWN start
        (2 ^ (12 + Nat.clog 2 ((e - start + 4096 - 1) >>> 12))) ≤
          f.address ∧
      f.address < ALIGN (start + (((e - start + 4096 - 1) >>> 12) <<< 12))
        (2 ^ (12 + Nat.clog 2 ((e - start + 4096 - 1) >>> 12)))) ∧
    (∀ x, start ≤ x → x < e → ∃ f ∈ intel_invalidate_range start e,
      f.address ≤ x ∧
      x < f.address +
        2 ^ (12 + Nat.clog 2 ((e - start + 4096 - 1) >>> 12))) := by
  have hpages : 1 ≤ (e - start + 4096 - 1) >>> 12 := by
    rw [Nat.shiftRight_eq_div_pow]
    have : 4096 ≤ e - start + 4096 - 1 := by omega
    calc 1 = 4096 / 2 ^ 12 := by norm_num
    _ ≤ (e - start + 4096 - 1) / 2 ^ 12 := Nat.div_le_div_right this
  have hshift : ilog2 (roundup_pow_of_two ((e - start + 4096 - 1) >>> 12)) =
      Nat.clog 2 ((e - start + 4096 - 1) >>> 12) :=
    ilog2_roundup_eq_clog hpages
  have halign : (1 : Nat) <<<
      (12 + Nat.clog 2 ((e - start + 4096 - 1) >>> 12)) =
      2 ^ (12 + Nat.clog 2 ((e - start + 4096 - 1) >>> 12)) := by
    rw [Nat.shiftLeft_eq, one_mul]
  have hpagesr : (2 ^ (12 + Nat.clog 2 ((e - start + 4096 - 1) >>> 12)))
      >>> 12 = 2 ^ Nat.clog 2 ((e - start + 4096 - 1) >>> 12) := by
    rw [Nat.shiftRight_eq_div_pow, pow_add]
    exact Nat.mul_div_cancel_left _ (by norm_num)
  have hunfold : intel_invalidate_range start e =
      flush_range_loop
        (2 ^ (12 + Nat.clog 2 ((e - start + 4096 - 1) >>> 12)))
        (ALIGN_DOWN start
          (2 ^ (12 + Nat.clog 2 ((e - start + 4096 - 1) >>> 12))))
        (ALIGN (start + (((e - start + 4096 - 1) >>> 12) <<< 12))
          (2 ^ (12 + Nat.clog 2 ((e - start + 4096 - 1) >>> 12)))) := by
    unfold intel_invalidate_range intel_flush_svm_range_dev
    rw [hshift, halign]
  constructor
  · intro f hf
    rw [hunfold] at hf
    have := flush_range_loop_mem _ _ _ _ (Nat.le_refl _)
      (ALIGN_DOWN_dvd _ _) f hf
    rw [hpagesr] at this
    exact ⟨this.1, this.2.1, this.2.2.1, this.2.2.2⟩
  · intro x hx hxe
    rw [hunfold]
    apply flush_range_loop_cover _ _ _ _ _ (Nat.le_refl _)
    · rw [hpagesr]
      exact Nat.pos_pow_of_pos _ (by norm_num)
    · calc ALIGN_DOWN start _ ≤ start := ALIGN_DOWN_le _ _
      _ ≤ x := hx
    · have h1 : e ≤ start + (((e - start + 4096 - 1) >>> 12) <<< 12) := by
        rw [Nat.shiftRight_eq_div_pow, Nat.shiftLeft_eq]
        have hdm := Nat.div_add_mod (e - start + 4096 - 1) (2 ^ 12)
        have hlt := Nat.mod_lt (e - start + 4096 - 1)
          (show 0 < 2 ^ 12 by norm_num)
        have h4096 : (2 : Nat) ^ 12 = 4096 := by norm_num
        omega
      have h2 : start + (((e - start + 4096 - 1) >>> 12) <<< 12) ≤
          ALIGN (start + (((e - start + 4096 - 1) >>> 12) <<< 12))
            (2 ^ (12 + Nat.clog 2 ((e - start + 4096 - 1) >>> 12))) :=
        le_ALIGN _ (Nat.pos_pow_of_pos _ (by norm_num))
      omega

/-- Concrete instantiation of `range_invalidated_flushes` on the range
`[0x1000, 0x3000)`: two pages, rounded to one aligned 8 KiB block size. -/
theorem range_invalidated_flushes_witness :
    (∀ f ∈ intel_invalidate_range 0x1000 0x3000,
      f.pages = 2 ^ Nat.clog 2 ((0x3000 - 0x1000 + 4096 - 1) >>> 12) ∧
      2 ^ (12 + Nat.clog 2 ((0x3000 - 0x1000 + 4096 - 1) >>> 12)) ∣
        f.address ∧
      ALIGN_DOWN 0x1000
        (2 ^ (12 + Nat.clog 2 ((0x3000 - 0x1000 + 4096 - 1) >>> 12))) ≤
          f.address ∧
      f.address <
        ALIGN (0x1000 + (((0x3000 - 0x1000 + 4096 - 1) >>> 12) <<< 12))
          (2 ^ (12 + Nat.clog 2 ((0x3000 - 0x1000 + 4096 - 1) >>> 12)))) ∧
    (∀ x, 0x1000 ≤ x → x < 0x3000 →
      ∃ f ∈ intel_invalidate_range 0x1000 0x3000,
        f.address ≤ x ∧
        x < f.address +
          2 ^ (12 + Nat.clog 2 ((0x3000 - 0x1000 + 4096 - 1) >>> 12))) :=
  range_invalidated_flushes 0x1000 0x3000 (by decide)

/-! ### Host-mode bind/unbind (svm.c 661-884) -/

/-- Error codes returned by the bind/unbind coordinator. -/
inductive errno where
  | EINVAL
  | ENOTSUPP
  | ENOMEM
  | ENOSPC
  | EALREADY
  | EBUSY
deriving Repr, DecidableEq

/-- `PASID_DISABLED`: the pasid published in an mm with no binding
(architecture constant, value irrelevant here). -/
def PASID_DISABLED : Nat := 0

/-- `PASID_MAX` from the pasid layer: 20-bit pasid space. -/
def PASID_MAX : Nat := 1 <<< 20

/-- `FLPT_DEFAULT_DID`: the domain-id used for first-level-only
translation (header constant, value irrelevant here). -/
def FLPT_DEFAULT_DID : Nat := 0

/-- `QI_DEV_EIOTLB_MAX_INVS` (header constant): the qdep cap above which
the source stores 0. -/
def QI_DEV_EIOTLB_MAX_INVS : Nat := 32

/-- The registry state mutated by host-mode bind/unbind: the
`global_svm_list` (in list order), the allocated host PASIDs, the address
spaces with a registered mmu notifier, and the pasid published in each mm
(`mm->pasid`, keyed by the opaque mm identifier). -/
structure reg_state where
  svms : List intel_svm
  pasids : List Nat
  notifiers : List Nat
  mm_pasid : Nat → Nat

/-- External collaborators and device facts consulted by
`intel_svm_bind_mm` / `intel_svm_unbind_mm`.  Fallible collaborators
return `some err` on failure and `none` on success. -/
structure bind_env where
  has_iommu : Bool
  dmar_disabled : Bool
  svm_capable : Bool
  dev_is_pci : Bool
  pci_max_pasids : Int
  ecap_srs : Bool
  sdev_alloc_ok : Bool
  svm_alloc_ok : Bool
  enable_pasid : Option errno
  bus_devfn : Nat
  ats_enabled : Bool
  ats_qdep : Nat
  intel_pasid_max_id : Int
  alloc_pasid : Option Nat
  notifier_register : Option errno
  setup_first_level : Option errno

/-- Replace the first element satisfying `p` (in-place mutation of a list
node found by a forward search). -/
def update_first (p : α → Bool) (f : α → α) : List α → List α
  | [] => []
  | x :: xs => if p x then f x :: xs else x :: update_first p f xs

/-- The fresh `intel_svm_dev` populated at svm.c lines 716-743. -/
def new_sdev (env : bind_env) (dev : Nat) : intel_svm_dev :=
  { dev := { id := dev, is_pci := env.dev_is_pci },
    sid := env.bus_devfn, users := 1, did := FLPT_DEFAULT_DID,
    qdep := if env.ats_enabled then
        (if QI_DEV_EIOTLB_MAX_INVS ≤ env.ats_qdep then 0 else env.ats_qdep)
      else 0,
    dev_iotlb := env.ats_enabled, pasid := 0 }

/-- The tail of `intel_svm_bind_mm` after the registry search (svm.c
lines 716-827): allocate and install the new device-binding, and the
binding itself when none existed. -/
def bind_install (env : bind_env) (dev : Nat) (flags : svm_flags)
    (mm : Option Nat) (st : reg_state) (svmo : Option intel_svm) :
    Except errno (reg_state × Nat) :=
  if !env.sdev_alloc_ok then .error .ENOMEM
  else
    match env.enable_pasid with
    | some err => .error err
    | none =>
      match svmo with
      | none =>
        if !env.svm_alloc_ok then .error .ENOMEM
        else
          match env.alloc_pasid with
          | none => .error .ENOSPC
          | some p =>
            match (if mm.isSome then env.notifier_register else none) with
            | some err => .error err
            | none =>
              match env.setup_first_level with
              | some err => .error err
              | none =>
                .ok ({ svms := (st.svms ++
                        [{ pasid := p, flags := flags, mm := mm,
                           devs := [{ new_sdev env dev with pasid := p }] }]),
                       pasids := p :: st.pasids,
                       notifiers := (match mm with
                         | some m => m :: st.notifiers
                         | none => st.notifiers),
                       mm_pasid := (fun m2 => match mm with
                         | some m => if m2 == m then p else st.mm_pasid m2
                         | none => st.mm_pasid m2) }, p)
      | some svm =>
        match env.setup_first_level with
        | some err => .error err
        | none =>
          .ok ({ st with svms := (update_first (fun t => t.mm == mm)
                  (fun t => { t with devs :=
                    { new_sdev env dev with pasid := t.pasid } :: t.devs })
                  st.svms) }, svm.pasid)

/-- `intel_svm_bind_mm` (svm.c lines 661-830). -/
def intel_svm_bind_mm (env : bind_env) (dev : Nat) (flags : svm_flags)
    (mm : Option Nat) (st : reg_state) : Except errno (reg_state × Nat) :=
  if !env.has_iommu || env.dmar_disabled then .error .EINVAL
  else if !env.svm_capable then .error .ENOTSUPP
  else if (if env.dev_is_pci then env.pci_max_pasids else
      ((1 <<< 20 : Nat) : Int)) < 0 then .error .EINVAL
  else if flags.supervisor_mode && (!env.ecap_srs || mm.isSome) then
    .error .EINVAL
  else
    match st.svms.find? (fun t => t.mm == mm) with
    | some svm =>
      if (if env.dev_is_pci then env.pci_max_pasids else
          ((1 <<< 20 : Nat) : Int)) ≤ (svm.pasid : Int) then .error .ENOSPC
      else
        match svm.devs.find? (fun d => d.dev.id == dev) with
        | some _ =>
          -- `for_each_svm_dev: sdev->users++; goto success` (lines 708-711)
          .ok ({ st with svms := (update_first (fun t => t.mm == mm)
                  (fun t => { t with devs :=
                    (update_first (fun d => d.dev.id == dev)
                      (fun d => { d with users := d.users + 1 }) t.devs) })
                  st.svms) }, svm.pasid)
        | none => bind_install env dev flags mm st (some svm)
    | none => bind_install env dev flags mm st none

/-- `intel_svm_unbind_mm` (svm.c lines 833-884), with the lookup of
`pasid_to_svm_sdev` (lines 338-387) inlined. -/
def intel_svm_unbind_mm (env : bind_env) (dev : Nat) (pasid : Nat)
    (st : reg_state) : Except errno reg_state :=
  if !env.has_iommu then .error .EINVAL
  else if PASID_MAX ≤ pasid then .error .EINVAL
  else
    match st.svms.find? (fun t => t.pasid == pasid) with
    | none => .ok st
    | some svm =>
      if svm.devs.isEmpty then .error .EINVAL
      else
        match svm.devs.find? (fun d => d.dev.id == dev) with
        | none => .ok st
        | some sdev =>
          if sdev.users - 1 ≠ 0 then
            .ok { st with svms := (update_first (fun t => t.pasid == pasid)
                    (fun t => { t with devs :=
                      (update_first (fun d => d.dev.id == dev)
                        (fun d => { d with users := d.users - 1 }) t.devs) })
                    st.svms) }
          else
            if (svm.devs.eraseP (fun d => d.dev.id == dev)).isEmpty then
              .ok { svms := st.svms.eraseP (fun t => t.pasid == pasid),
                    pasids := st.pasids.erase pasid,
                    notifiers := (match svm.mm with
                      | some m => st.notifiers.erase m
                      | none => st.notifiers),
                    mm_pasid := (fun m2 => match svm.mm with
                      | some m =>
                        if m2 == m then PASID_DISABLED else st.mm_pasid m2
                      | none => st.mm_pasid m2) }
            else
              .ok { st with svms := (update_first (fun t => t.pasid == pasid)
                      (fun t => { t with devs :=
                        (t.devs.eraseP (fun d => d.dev.id == dev)) })
                      st.svms) }

/-- Host-mode bind flags: no supervisor mode, no guest mode. -/
def host_flags : svm_flags := { supervisor_mode := false, guest_mode := false }

/-- A bind environment in which every external collaborator succeeds. -/
def bind_env_ex : bind_env :=
  { has_iommu := true, dmar_disabled := false, svm_capable := true,
    dev_is_pci := true, pci_max_pasids := 0x100000, ecap_srs := true,
    sdev_alloc_ok := true, svm_alloc_ok := true, enable_pasid := none,
    bus_devfn := 0x42, ats_enabled := false, ats_qdep := 0,
    intel_pasid_max_id := 0x100000, alloc_pasid := some 5,
    notifier_register := none, setup_first_level := none }

/-- An existing device-binding of device 3 under pasid 5. -/
def sdev_ex : intel_svm_dev :=
  { dev := { id := 3, is_pci := true }, sid := 0x42, users := 1, did := 0,
    qdep := 0, dev_iotlb := false, pasid := 5 }

/-- An existing host binding for address space 1 with `sdev_ex` bound. -/
def svm_bound_ex : intel_svm :=
  { pasid := 5, flags := host_flags, mm := some 1, devs := [sdev_ex] }

/-- A registry already holding `svm_bound_ex`. -/
def reg_state_ex : reg_state :=
  { svms := [svm_bound_ex], pasids := [5], notifiers := [1],
    mm_pasid := fun _ => PASID_DISABLED }

/-- Claim C3 counterexample: re-binding device 3 to address space 1, whose
binding already carries a device-binding for device 3, does NOT refuse
with EALREADY — it succeeds, incrementing the usage counter. -/
theorem bind_dup_no_ealready :
    intel_svm_bind_mm bind_env_ex 3 host_flags (some 1) reg_state_ex =
      Except.ok ({ reg_state_ex with
        svms := [{ svm_bound_ex with
          devs := [{ sdev_ex with users := 2 }] }] }, 5) ∧
    intel_svm_bind_mm bind_env_ex 3 host_flags (some 1) reg_state_ex ≠
      Except.error errno.EALREADY := by
  constructor
  · rfl
  · intro h
    exact Except.noConfusion h

/-- Claim C3 (amended): when a binding for the given address space already
exists and a device-binding for the requesting device already exists on
it, host-mode bind succeeds, incrementing that device-binding's usage
counter and leaving the registry otherwise unchanged. -/
theorem bind_existing_device_increments_users (env : bind_env) (dev : Nat)
    (flags : svm_flags) (mm : Option Nat) (st : reg_state)
    (svm : intel_svm) (sdev : intel_svm_dev)
    (h1 : env.has_iommu = true) (h2 : env.dmar_disabled = false)
    (h3 : env.svm_capable = true)
    (hpm : ¬((if env.dev_is_pci then env.pci_max_pasids else
      ((1 <<< 20 : Nat) : Int)) < 0))
    (hsup : (flags.supervisor_mode && (!env.ecap_srs || mm.isSome)) = false)
    (hfind : st.svms.find? (fun t => t.mm == mm) = some svm)
    (hlt : ¬((if env.dev_is_pci then env.pci_max_pasids else
      ((1 <<< 20 : Nat) : Int)) ≤ (svm.pasid : Int)))
    (hdev : svm.devs.find? (fun d => d.dev.id == dev) = some sdev) :
    intel_svm_bind_mm env dev flags mm st =
      Except.ok ({ st with svms := (update_first (fun t => t.mm == mm)
        (fun t => { t with devs := (update_first (fun d => d.dev.id == dev)
          (fun d => { d with users := d.users + 1 }) t.devs) }) st.svms) },
        svm.pasid) := by
  unfold intel_svm_bind_mm
  have e : ((1 <<< 20 : Nat) : Int) = 1048576 := by
    norm_num [Nat.shiftLeft_eq]
  rw [e] at hpm hlt
  simp [h1, h2, h3, hsup, hfind, hdev, hpm, hlt]

/-- Concrete instantiation of `bind_existing_device_increments_users` on
`reg_state_ex`. -/
theorem bind_existing_device_increments_users_witness :
    intel_svm_bind_mm bind_env_ex 3 host_flags (some 1) reg_state_ex =
      Except.ok ({ reg_state_ex with
        svms := (update_first (fun t => t.mm == some 1)
          (fun t => { t with devs := (update_first (fun d => d.dev.id == 3)
            (fun d => { d with users := d.users + 1 }) t.devs) })
          reg_state_ex.svms) }, svm_bound_ex.pasid) :=
  bind_existing_device_increments_users bind_env_ex 3 host_flags (some 1)
    reg_state_ex svm_bound_ex sdev_ex rfl rfl rfl (by decide) rfl
    (by decide) (by decide) (by decide)

/-- The binding created by a first successful host-mode bind: fresh pasid
`p`, the caller's flags, address space `m`, and one device-binding. -/
def bound_svm (env : bind_env) (dev : Nat) (flags : svm_flags)
    (m p : Nat) : intel_svm :=
  { pasid := p, flags := flags, mm := some m,
    devs := [{ new_sdev env dev with pasid := p }] }

/-- The registry state after a first successful host-mode bind. -/
def bound_state (env : bind_env) (dev : Nat) (flags : svm_flags)
    (m p : Nat) (svms : List intel_svm) (pasids notifiers : List Nat)
    (mmp : Nat → Nat) : reg_state :=
  { svms := svms ++ [bound_svm env dev flags m p],
    pasids := p :: pasids, notifiers := m :: notifiers,
    mm_pasid := (fun m2 => if m2 == m then p else mmp m2) }

/-- Replacing the first element satisfying `p` by itself is a no-op. -/
theorem update_first_id (p : α → Bool) :
    ∀ l : List α, update_first p (fun a => a) l = l := by
  intro l
  induction l with
  | nil => rfl
  | cons a l ih =>
    by_cases hpa : p a = true
    · simp [update_first, hpa]
    · simp [update_first, hpa, ih]

/-- A forward search finds the updated element after `update_first` with a
predicate-preserving update. -/
theorem find?_update_first (p : α → Bool) (f : α → α)
    (hpf : ∀ a, p a = true → p (f a) = true) :
    ∀ (l : List α) (a : α), l.find? p = some a →
      (update_first p f l).find? p = some (f a) := by
  intro l
  induction l with
  | nil =>
    intro a h
    cases h
  | cons b l ih =>
    intro a h
    by_cases hpb : p b = true
    · rw [List.find?_cons_of_pos _ hpb] at h
      cases h
      simp only [update_first]
      rw [if_pos hpb]
      exact List.find?_cons_of_pos _ (hpf b hpb)
    · rw [List.find?_cons_of_neg _ hpb] at h
      simp only [update_first]
      rw [if_neg hpb, List.find?_cons_of_neg _ hpb]
      exact ih a h

/-- Incrementing then decrementing the usage counter of the first
device-binding matching `dev` restores the device list. -/
theorem update_users_roundtrip (dev : Nat) :
    ∀ l : List intel_svm_dev,
      update_first (fun d => d.dev.id == dev)
        (fun d => { d with users := d.users - 1 })
        (update_first (fun d => d.dev.id == dev)
          (fun d => { d with users := d.users + 1 }) l) = l := by
  intro l
  induction l with
  | nil => rfl
  | cons a l ih =>
    by_cases hpa : (a.dev.id == dev) = true
    · simp only [update_first]
      rw [if_pos hpa]
      simp only [update_first]
      rw [if_pos hpa]
      simp [Nat.add_sub_cancel]
    · simp only [update_first]
      rw [if_neg hpa]
      simp only [update_first]
      rw [if_neg hpa, ih]

/-- Updating the first binding matching address space `m` by `f` and then
the first binding matching its pasid by `g` restores the list whenever
`g` undoes `f`, pasids are registry-unique, and `f` keeps the pasid. -/
theorem svm_update_roundtrip (m p : Nat) (f g : intel_svm → intel_svm)
    (hfp : ∀ t, (f t).pasid = t.pasid) :
    ∀ (L : List intel_svm) (svm : intel_svm),
      List.Pairwise (fun s t => s.pasid ≠ t.pasid) L →
      L.find? (fun t => t.mm == some m) = some svm →
      svm.pasid = p →
      g (f svm) = svm →
      (update_first (fun t => t.mm == some m) f L).find?
          (fun t => t.pasid == p) = some (f svm) ∧
        update_first (fun t => t.pasid == p) g
          (update_first (fun t => t.mm == some m) f L) = L := by
  intro L
  induction L with
  | nil =>
    intro svm _ h
    cases h
  | cons a L ih =>
    intro svm hpw hfind hp hgf
    by_cases hma : (a.mm == some m) = true
    · rw [show List.find? (fun t : intel_svm => t.mm == some m) (a :: L) =
          some a from List.find?_cons_of_pos _ hma] at hfind
      cases hfind
      have hfap : ((f a).pasid == p) = true := by
        rw [hfp a]
        simp [hp]
      constructor
      · simp only [update_first]
        rw [if_pos hma]
        exact List.find?_cons_of_pos _ hfap
      · simp only [update_first]
        rw [if_pos hma]
        simp only [update_first]
        rw [if_pos hfap, hgf]
    · rw [show List.find? (fun t : intel_svm => t.mm == some m) (a :: L) =
          List.find? (fun t : intel_svm => t.mm == some m) L from
          List.find?_cons_of_neg _ hma] at hfind
      have hmem : svm ∈ L := List.mem_of_find?_eq_some hfind
      have hane : ¬((a.pasid == p) = true) := by
        have h2 := (List.pairwise_cons.mp hpw).1 svm hmem
        simp only [beq_iff_eq]
        omega
      obtain ⟨ih1, ih2⟩ := ih svm (List.pairwise_cons.mp hpw).2 hfind hp hgf
      constructor
      · simp only [update_first]
        rw [if_neg hma,
          show List.find? (fun t : intel_svm => t.pasid == p)
            (a :: update_first (fun t : intel_svm => t.mm == some m) f L) =
            List.find? (fun t : intel_svm => t.pasid == p)
              (update_first (fun t : intel_svm => t.mm == some m) f L) from
            List.find?_cons_of_neg _ hane]
        exact ih1
      · simp only [update_first]
        rw [if_neg hma]
        simp only [update_first]
        rw [if_neg hane, ih2]

/-- The registry state after binding a second device to an existing
binding (svm.c lines 803-821: set up the PASID entry, `list_add_rcu` the
new sdev at the head of `svm->devs`). -/
def second_dev_state (env : bind_env) (dev m : Nat) (st : reg_state) :
    reg_state :=
  { st with svms := (update_first (fun t => t.mm == some m)
      (fun t => { t with devs :=
        ({ new_sdev env dev with pasid := t.pasid } :: t.devs) })
      st.svms) }

/-- The registry state after a repeat bind of an already-bound device
(svm.c lines 708-711: `sdev->users++`). -/
def inc_users_state (dev m : Nat) (st : reg_state) : reg_state :=
  { st with svms := (update_first (fun t => t.mm == some m)
      (fun t => { t with devs := (update_first (fun d => d.dev.id == dev)
        (fun d => { d with users := d.users + 1 }) t.devs) })
      st.svms) }

/-- Claim C7: a successful host-mode `bind(d, a)` followed by
`unbind(d, pasid)` with no other binding activity restores the registry to
its pre-bind state, in all three shapes the source allows: a first bind
creating the binding (unbind removes the device-binding and the binding,
releases the PASID, unregisters the observer, and restores the published
mm pasid), a bind of a second device onto an existing binding (unbind
removes just that device-binding), and a repeat bind of an already-bound
device (unbind undoes the usage-counter increment).  The well-formedness
hypotheses (pasid-uniqueness, non-empty device sets, positive usage
counters) are the registry invariants every reachable state satisfies. -/
theorem bind_unbind_roundtrip :
    (∀ (env : bind_env) (dev m p : Nat) (flags : svm_flags)
       (st : reg_state),
      env.has_iommu = true → env.dmar_disabled = false →
      env.svm_capable = true →
      ¬((if env.dev_is_pci then env.pci_max_pasids else
        ((1 <<< 20 : Nat) : Int)) < 0) →
      flags.supervisor_mode = false →
      st.svms.find? (fun t => t.mm == some m) = none →
      env.alloc_pasid = some p →
      env.sdev_alloc_ok = true → env.svm_alloc_ok = true →
      env.enable_pasid = none →
      env.notifier_register = none →
      env.setup_first_level = none →
      p < PASID_MAX →
      (∀ t ∈ st.svms, t.pasid ≠ p) →
      st.mm_pasid m = PASID_DISABLED →
      ∃ st1, intel_svm_bind_mm env dev flags (some m) st =
          Except.ok (st1, p) ∧
        intel_svm_unbind_mm env dev p st1 = Except.ok st) ∧
    (∀ (env : bind_env) (dev m : Nat) (flags : svm_flags)
       (st : reg_state) (svm : intel_svm),
      env.has_iommu = true → env.dmar_disabled = false →
      env.svm_capable = true →
      ¬((if env.dev_is_pci then env.pci_max_pasids else
        ((1 <<< 20 : Nat) : Int)) < 0) →
      flags.supervisor_mode = false →
      st.svms.find? (fun t => t.mm == some m) = some svm →
      ¬((if env.dev_is_pci then env.pci_max_pasids else
        ((1 <<< 20 : Nat) : Int)) ≤ (svm.pasid : Int)) →
      svm.devs.find? (fun d => d.dev.id == dev) = none →
      env.sdev_alloc_ok = true →
      env.enable_pasid = none →
      env.setup_first_level = none →
      svm.pasid < PASID_MAX →
      List.Pairwise (fun s t => s.pasid ≠ t.pasid) st.svms →
      svm.devs ≠ [] →
      ∃ st1, intel_svm_bind_mm env dev flags (some m) st =
          Except.ok (st1, svm.pasid) ∧
        intel_svm_unbind_mm env dev svm.pasid st1 = Except.ok st) ∧
    (∀ (env : bind_env) (dev m : Nat) (flags : svm_flags)
       (st : reg_state) (svm : intel_svm) (sdev : intel_svm_dev),
      env.has_iommu = true → env.dmar_disabled = false →
      env.svm_capable = true →
      ¬((if env.dev_is_pci then env.pci_max_pasids else
        ((1 <<< 20 : Nat) : Int)) < 0) →
      flags.supervisor_mode = false →
      st.svms.find? (fun t => t.mm == some m) = some svm →
      ¬((if env.dev_is_pci then env.pci_max_pasids else
        ((1 <<< 20 : Nat) : Int)) ≤ (svm.pasid : Int)) →
      svm.devs.find? (fun d => d.dev.id == dev) = some sdev →
      1 ≤ sdev.users →
      svm.pasid < PASID_MAX →
      List.Pairwise (fun s t => s.pasid ≠ t.pasid) st.svms →
      ∃ st1, intel_svm_bind_mm env dev flags (some m) st =
          Except.ok (st1, svm.pasid) ∧
        intel_svm_unbind_mm env dev svm.pasid st1 = Except.ok st) := by
  refine ⟨?_, ?_, ?_⟩
  · intro env dev m p flags st h1 h2 h3 hpm hsup hfind halloc hsdev hsvma
      henable hnot hsetup hp hfresh hmmp
    obtain ⟨svms, pasids, notifiers, mmp⟩ := st
    simp only at hfind hfresh hmmp
    refine ⟨bound_state env dev flags m p svms pasids notifiers mmp, ?_, ?_⟩
    · unfold intel_svm_bind_mm bind_install bound_state bound_svm
      have e : ((1 <<< 20 : Nat) : Int) = 1048576 := by
        norm_num [Nat.shiftLeft_eq]
      rw [e] at hpm
      simp [h1, h2, h3, hsup, hfind, halloc, hsdev, hsvma, henable, hnot,
        hsetup, hpm, Int.not_lt.mp hpm]
    · have hfa : svms.find? (fun t => t.pasid == p) = none := by
        rw [List.find?_eq_none]
        intro t ht
        simp only [beq_iff_eq]
        exact hfresh t ht
      have hfa2 : ∀ b ∈ svms,
          ¬((fun t : intel_svm => t.pasid == p) b = true) := by
        intro b hb
        simp only [beq_iff_eq]
        exact hfresh b hb
      unfold intel_svm_unbind_mm bound_state bound_svm
      have hfun : (fun m2 => if m2 = m then PASID_DISABLED
          else if m2 = m then p else mmp m2) = mmp := by
        funext m2
        by_cases hm : m2 = m
        · subst hm
          simp [hmmp]
        · simp [hm]
      rw [if_neg (by simp [h1]), if_neg (by omega)]
      rw [List.find?_append, hfa]
      simp only [Option.none_or]
      rw [List.find?_cons_of_pos _ (by simp)]
      simp [new_sdev, List.eraseP_append_right _ hfa2, hmmp]
      exact hfun
  · intro env dev m flags st svm h1 h2 h3 hpm hsup hfind hlt hdev hsdev
      henable hsetup hp hpw hdevne
    have e : ((1 <<< 20 : Nat) : Int) = 1048576 := by
      norm_num [Nat.shiftLeft_eq]
    rw [e] at hpm hlt
    refine ⟨second_dev_state env dev m st, ?_, ?_⟩
    · unfold intel_svm_bind_mm bind_install second_dev_state
      simp [h1, h2, h3, hsup, hfind, hdev, hsdev, henable, hsetup, hpm,
        hlt]
    · have hgf : (fun t : intel_svm => { t with devs :=
          (t.devs.eraseP (fun d => d.dev.id == dev)) })
          ((fun t : intel_svm => { t with devs :=
            ({ new_sdev env dev with pasid := t.pasid } :: t.devs) })
            svm) = svm := by
        show ({ svm with devs := (List.eraseP (fun d => d.dev.id == dev)
          ({ new_sdev env dev with pasid := svm.pasid } :: svm.devs)) } :
            intel_svm) = svm
        rw [List.eraseP_cons_of_pos (by simp [new_sdev])]
      obtain ⟨hfindp, hupdate⟩ := svm_update_roundtrip m svm.pasid
        (fun t => { t with devs :=
          ({ new_sdev env dev with pasid := t.pasid } :: t.devs) })
        (fun t => { t with devs :=
          (t.devs.eraseP (fun d => d.dev.id == dev)) })
        (fun t => rfl) st.svms svm hpw hfind rfl hgf
      have hie : svm.devs.isEmpty = false := List.isEmpty_eq_false.mpr hdevne
      unfold intel_svm_unbind_mm second_dev_state
      rw [if_neg (by simp [h1]), if_neg (by omega)]
      rw [hfindp]
      simp only [new_sdev] at hupdate
      simp [new_sdev, hie, hupdate]
  · intro env dev m flags st svm sdev h1 h2 h3 hpm hsup hfind hlt hdev
      husers hp hpw
    have e : ((1 <<< 20 : Nat) : Int) = 1048576 := by
      norm_num [Nat.shiftLeft_eq]
    rw [e] at hpm hlt
    refine ⟨inc_users_state dev m st, ?_, ?_⟩
    · unfold intel_svm_bind_mm inc_users_state
      simp [h1, h2, h3, hsup, hfind, hdev, hpm, hlt]
    · have hgf : (fun t : intel_svm => { t with devs :=
          (update_first (fun d => d.dev.id == dev)
            (fun d => { d with users := d.users - 1 }) t.devs) })
          ((fun t : intel_svm => { t with devs :=
            (update_first (fun d => d.dev.id == dev)
              (fun d => { d with users := d.users + 1 }) t.devs) })
            svm) = svm := by
        show ({ svm with devs := (update_first (fun d => d.dev.id == dev)
          (fun d => { d with users := d.users - 1 })
          (update_first (fun d => d.dev.id == dev)
            (fun d => { d with users := d.users + 1 }) svm.devs)) } :
            intel_svm) = svm
        rw [update_users_roundtrip]
      obtain ⟨hfindp, hupdate⟩ := svm_update_roundtrip m svm.pasid
        (fun t => { t with devs :=
          (update_first (fun d => d.dev.id == dev)
            (fun d => { d with users := d.users + 1 }) t.devs) })
        (fun t => { t with devs :=
          (update_first (fun d => d.dev.id == dev)
            (fun d => { d with users := d.users - 1 }) t.devs) })
        (fun t => rfl) st.svms svm hpw hfind rfl hgf
      have hfd : (update_first (fun d => d.dev.id == dev)
          (fun d => { d with users := d.users + 1 }) svm.devs).find?
            (fun d => d.dev.id == dev) =
          some { sdev with users := sdev.users + 1 } :=
        find?_update_first (fun d => d.dev.id == dev)
          (fun d => { d with users := d.users + 1 })
          (fun a ha => ha) svm.devs sdev hdev
      have hie : (update_first (fun d => d.dev.id == dev)
          (fun d => { d with users := d.users + 1 })
            svm.devs).isEmpty = false := by
        cases hd : svm.devs with
        | nil =>
          rw [hd] at hdev
          cases hdev
        | cons d0 ds =>
          by_cases h0 : (d0.dev.id == dev) = true
          · simp only [update_first]
            rw [if_pos h0]
            rfl
          · simp only [update_first]
            rw [if_neg h0]
            rfl
      have hu : sdev.users + 1 - 1 ≠ 0 := by omega
      unfold intel_svm_unbind_mm inc_users_state
      rw [if_neg (by simp [h1]), if_neg (by omega)]
      rw [hfindp]
      simp [hfd, hie, hu, hupdate]
      intro h0
      exact absurd h0 (by omega)

/-- An empty registry. -/
def reg_state_empty : reg_state :=
  { svms := [], pasids := [], notifiers := [],
    mm_pasid := fun _ => PASID_DISABLED }

/-- Concrete instantiation of all three parts of `bind_unbind_roundtrip`:
a first bind of device 3 on an empty registry, a second-device bind of
device 4 on `reg_state_ex`, and a repeat bind of device 3 on
`reg_state_ex`; each followed by the unbind restoring the prior state. -/
theorem bind_unbind_roundtrip_witness :
    (∃ st1, intel_svm_bind_mm bind_env_ex 3 host_flags (some 1)
        reg_state_empty = Except.ok (st1, 5) ∧
      intel_svm_unbind_mm bind_env_ex 3 5 st1 =
        Except.ok reg_state_empty) ∧
    (∃ st1, intel_svm_bind_mm bind_env_ex 4 host_flags (some 1)
        reg_state_ex = Except.ok (st1, svm_bound_ex.pasid) ∧
      intel_svm_unbind_mm bind_env_ex 4 svm_bound_ex.pasid st1 =
        Except.ok reg_state_ex) ∧
    (∃ st1, intel_svm_bind_mm bind_env_ex 3 host_flags (some 1)
        reg_state_ex = Except.ok (st1, svm_bound_ex.pasid) ∧
      intel_svm_unbind_mm bind_env_ex 3 svm_bound_ex.pasid st1 =
        Except.ok reg_state_ex) :=
  ⟨bind_unbind_roundtrip.1 bind_env_ex 3 1 5 host_flags reg_state_empty
      rfl rfl rfl (by decide) rfl rfl rfl rfl rfl rfl rfl rfl (by decide)
      (by simp [reg_state_empty]) rfl,
   bind_unbind_roundtrip.2.1 bind_env_ex 4 1 host_flags reg_state_ex
      svm_bound_ex rfl rfl rfl (by decide) rfl (by decide) (by decide)
      (by decide) rfl rfl rfl (by decide) (by simp [reg_state_ex])
      (by decide),
   bind_unbind_roundtrip.2.2 bind_env_ex 3 1 host_flags reg_state_ex
      svm_bound_ex sdev_ex rfl rfl rfl (by decide) rfl (by decide)
      (by decide) (by decide) (by decide) (by decide)
      (by simp [reg_state_ex])⟩

end IntelSvm
